import Mathlib

/-!
Shallow embedding of the Monodrift vehicle simulation core.

The embedding translates, over the real numbers, the gameplay logic of:
  * `Car` (Car.js: `update`, `restart`, `revive`, `triggerCrash`, the
    acceleration/brake/steering helpers) — vehicle dynamics, drift scoring,
    nitro, spin detection, crash recovery;
  * `Physics` (Physics.js: `applyFriction`, `calculateDrift`,
    `handleCollision`, `checkCollisions`) — friction, the drift force model
    and the collision response;
  * `GameState` (src/core/GameState.js: `addScore`, `updateDriftMultiplier`,
    `resetScore`) — the session-clock-gated score with its chain multiplier.

JavaScript numbers are idealised as `ℝ`; `Math.pow` becomes `Real.rpow` for
the non-integral exponents, `Math.sign` becomes `Real.sign`, `Math.floor`
becomes `Int.floor`, the JS `%` operator (a remainder whose sign follows the
dividend) is modelled by `jsRem` via truncation toward zero.  Visual-only
side effects (DOM text, particles, lights, camera) are dropped; the
`CustomEvent`s dispatched by `Car.update` are returned as an explicit list.
-/

noncomputable section

namespace Monodrift

/-- 3D vectors, as used by THREE.Vector3 for velocity, position and normals. -/
structure Vec3 where
  x : ℝ
  y : ℝ
  z : ℝ

namespace Vec3

def add (v w : Vec3) : Vec3 := ⟨v.x + w.x, v.y + w.y, v.z + w.z⟩

def sub (v w : Vec3) : Vec3 := ⟨v.x - w.x, v.y - w.y, v.z - w.z⟩

def multiplyScalar (v : Vec3) (c : ℝ) : Vec3 := ⟨v.x * c, v.y * c, v.z * c⟩

def dot (v w : Vec3) : ℝ := v.x * w.x + v.y * w.y + v.z * w.z

def length (v : Vec3) : ℝ := Real.sqrt (v.x ^ 2 + v.y ^ 2 + v.z ^ 2)

/-- THREE.Vector3.normalize divides by `length() || 1`: the zero vector is
left unchanged. -/
def normalize (v : Vec3) : Vec3 :=
  if v.length = 0 then v else v.multiplyScalar (1 / v.length)

/-- THREE.Vector3.reflect: `v - 2 (v ⬝ n) n` (normal assumed unit length). -/
def reflect (v n : Vec3) : Vec3 := v.sub (n.multiplyScalar (2 * v.dot n))

def zero : Vec3 := ⟨0, 0, 0⟩

end Vec3

/-- Truncation toward zero, as performed by JS when computing `a % b`. -/
def jsTrunc (x : ℝ) : ℝ := if 0 ≤ x then (⌊x⌋ : ℤ) else (⌈x⌉ : ℤ)

/-- The JS `%` operator on numbers: remainder with the sign of the dividend,
`a % b = a - b * trunc (a / b)`. -/
def jsRem (a b : ℝ) : ℝ := a - b * jsTrunc (a / b)

/-- `new THREE.Vector3(0, 0, -1).applyAxisAngle(new THREE.Vector3(0, 1, 0), θ)`:
the car's forward unit vector for yaw `θ`. -/
def forwardDir (θ : ℝ) : Vec3 := ⟨-Real.sin θ, 0, -Real.cos θ⟩

/-- `new THREE.Vector3(1, 0, 0).applyQuaternion(car.mesh.quaternion)`: the
car's right-hand unit vector for yaw `θ`. -/
def rightDir (θ : ℝ) : Vec3 := ⟨Real.cos θ, 0, -Real.sin θ⟩

/-! ### Car constants (Car.js constructor) -/

def maxSpeed : ℝ := 25
def turnSpeed : ℝ := 4.0
def driftTurnMultiplier : ℝ := 2.2
def collisionRadius : ℝ := 0.8
def enginePower : ℝ := 800
def brakeForce : ℝ := 100
def rollingResistance : ℝ := 0.015
def dragCoefficient : ℝ := 0.3
def engineBrakingFactor : ℝ := 0.55
def nitroAmount : ℝ := 100
def nitroBoostFactor : ℝ := 6
def nitroDepletionRate : ℝ := 30
def nitroRecoveryFromDrift : ℝ := 4
def driftInitiationSpeed : ℝ := 5.0
def driftRecoveryRate : ℝ := 0.7
def maxDriftDuration : ℝ := 5.0
def driftPointsBase : ℝ := 10
def initialPosition : Vec3 := ⟨20, 0, 20⟩
def initialRotation : ℝ := 0
def collisionRecoveryTime : ℝ := 2.0
def spinThreshold : ℝ := 4.0

/-! ### Physics constants (Physics.js constructor) -/

def friction : ℝ := 0.95
def driftFriction : ℝ := 0.995

/-- The per-frame input snapshot (InputHandler.keys). -/
structure Keys where
  space : Bool := false
  arrowUp : Bool := false
  arrowDown : Bool := false
  arrowLeft : Bool := false
  arrowRight : Bool := false
  w : Bool := false
  a : Bool := false
  s : Bool := false
  d : Bool := false
  shift : Bool := false
  r : Bool := false

/-- The mutable state of `Car` (physics/score/crash fields; visual-only
fields are omitted). -/
structure CarState where
  velocity : ℝ
  velocityVector : Vec3
  position : Vec3
  rotationY : ℝ
  prevRotation : ℝ
  currentNitro : ℝ
  isNitroActive : Bool
  isDrifting : Bool
  isBraking : Bool
  isAccelerating : Bool
  steeringAngle : ℝ
  driftDuration : ℝ
  driftIntensity : ℝ
  driftScore : ℝ
  totalScore : ℝ
  activeDriftPoints : ℝ
  driftPointsMultiplier : ℝ
  spinRate : ℝ
  isSpinning : Bool
  spinScore : ℝ
  spinTime : ℝ
  isCollided : Bool
  collisionTimer : ℝ

/-- The `Car` state constructed by the Car.js constructor. -/
def initCar : CarState where
  velocity := 0
  velocityVector := Vec3.zero
  position := ⟨20, 0, 20⟩
  rotationY := 0
  prevRotation := 0
  currentNitro := 100
  isNitroActive := false
  isDrifting := false
  isBraking := false
  isAccelerating := false
  steeringAngle := 0
  driftDuration := 0
  driftIntensity := 0
  driftScore := 0
  totalScore := 0
  activeDriftPoints := 0
  driftPointsMultiplier := 1.0
  spinRate := 0
  isSpinning := false
  spinScore := 0
  spinTime := 0
  isCollided := false
  collisionTimer := 0

/-- The `CustomEvent`s dispatched by `Car.update`. -/
inductive GameEvent where
  | driftScore (points : ℤ) (total : ℝ) (position : Vec3)
  | spinout (score : ℤ) (duration : ℝ) (position : Vec3)

namespace Car

/-- Car.js `calculateAccelerationFactor`. -/
def calculateAccelerationFactor (velocity : ℝ) : ℝ :=
  let speedRatio := |velocity| / maxSpeed
  (1 - speedRatio ^ (1.5 : ℝ)) * 0.05

/-- Car.js `calculateDragForce`. -/
def calculateDragForce (velocity dt : ℝ) : ℝ :=
  dragCoefficient * |velocity| ^ 2 * 0.001 * dt

/-- Car.js `calculateRollingResistance`. -/
def calculateRollingResistance (velocity dt : ℝ) : ℝ :=
  rollingResistance * |velocity| * 0.01 * dt

/-- Car.js `calculateSteeringFactor`. -/
def calculateSteeringFactor (velocity : ℝ) : ℝ :=
  let speedRatio := |velocity| / maxSpeed
  if speedRatio < 0.2 then 0.5 + speedRatio * 2.5
  else if 0.8 < speedRatio then 1.0 - (speedRatio - 0.8) * 0.5
  else 1.0

/-- Car.js `triggerCrash` (the visual colour flashing and the recovery
message are omitted). -/
def triggerCrash (car : CarState) : CarState :=
  if car.isCollided = true then car
  else
    { car with
      isCollided := true
      collisionTimer := 0
      velocity := car.velocity * 0.2
      isDrifting := false }

/-- Car.js `revive` (auto-revival after the collision recovery timer). -/
def revive (car : CarState) : CarState :=
  let forward := forwardDir car.rotationY
  { car with
    position := car.position.sub (forward.multiplyScalar 3)
    velocity := 0
    velocityVector := Vec3.zero
    isDrifting := false
    isCollided := false
    collisionTimer := 0
    isNitroActive := false }

/-- Car.js `restart`. -/
def restart (car : CarState) : CarState :=
  { car with
    position := initialPosition
    rotationY := initialRotation
    velocity := 0
    velocityVector := Vec3.zero
    isDrifting := false
    isAccelerating := false
    isBraking := false
    steeringAngle := 0
    driftDuration := 0
    driftIntensity := 0
    currentNitro := nitroAmount
    isNitroActive := false
    activeDriftPoints := 0
    isCollided := false
    collisionTimer := 0 }

end Car

namespace Physics

/-- A raycaster intersection record (`intersects[i]`): the hit distance and
the struck face's normal, when the hit carries a face. -/
structure Intersection where
  distance : ℝ
  face : Option Vec3

/-- Physics.js `applyFriction`. -/
def applyFriction (car : CarState) (dt : ℝ) (isDrifting : Bool) : CarState :=
  if isDrifting = true then
    let car :=
      if 0 < car.velocity then
        { car with velocity := min (car.velocity + 0.25 * dt * car.velocity) maxSpeed }
      else car
    { car with velocityVector := car.velocityVector.multiplyScalar driftFriction }
  else
    { car with velocityVector := car.velocityVector.multiplyScalar friction }

/-- Physics.js `calculateDrift`: returns the updated car together with the
scalar drift force handed to the visual effects. -/
def calculateDrift (car : CarState) (steeringAngle : ℝ) (isDrifting : Bool) (dt : ℝ) :
    CarState × ℝ :=
  if isDrifting = true then
    let carForwardDir := forwardDir car.rotationY
    let carRightDir := rightDir car.rotationY
    let lateralForce :=
      carRightDir.multiplyScalar (steeringAngle * 3.0 * |car.velocity| * 0.04 * dt)
    let forwardForce := carForwardDir.multiplyScalar (|car.velocity| * 0.2 * dt)
    let v1 := (car.velocityVector.add lateralForce).add forwardForce
    let velocityDir := v1.normalize
    let currentAngle := Real.arccos (velocityDir.dot carForwardDir)
    let v2 :=
      if Real.pi * 0.35 < currentAngle then
        v1.add (carForwardDir.multiplyScalar (0.1 * dt * |car.velocity|))
      else v1
    ({ car with velocityVector := v2 }, |steeringAngle| * 3.0)
  else (car, 0)

/-- Physics.js `handleCollision`. -/
def handleCollision (car : CarState) (collision : Intersection) : CarState :=
  let car := { car with velocity := car.velocity * 0.3 }
  let normal := collision.face.getD ⟨0, 0, 1⟩
  let car :=
    { car with velocityVector := (car.velocityVector.reflect normal).multiplyScalar 0.5 }
  Car.triggerCrash car

/-- Physics.js `checkCollisions`: the raycast result is passed in as the
list of intersections along the car's forward ray, nearest first. -/
def checkCollisions (car : CarState) (intersects : List Intersection) : CarState × Bool :=
  match intersects with
  | [] => (car, false)
  | first :: _ =>
    if first.distance < collisionRadius then (handleCollision car first, true)
    else (car, false)

end Physics

namespace Car

/-- Car.js `update`, lines 274–285: nitro activation and depletion. -/
def nitroStep (car : CarState) (keys : Keys) (dt : ℝ) : CarState :=
  if keys.shift = true ∧ 0 < car.currentNitro ∧ 0 < car.velocity then
    { car with
      isNitroActive := true
      currentNitro := max 0 (car.currentNitro - nitroDepletionRate * dt) }
  else { car with isNitroActive := false }

/-- Car.js `update`, lines 293–383: the longitudinal speed model
(throttle / brake-reverse / natural deceleration). -/
def inputStep (car : CarState) (keys : Keys) (dt : ℝ) : CarState :=
  if keys.arrowUp = true ∨ keys.w = true then
    let car := { car with isAccelerating := true }
    if 0 ≤ car.velocity then
      let accelerationFactor := calculateAccelerationFactor car.velocity
      let engineForce := enginePower * accelerationFactor * dt
      let engineForce :=
        if car.isNitroActive = true then engineForce * nitroBoostFactor else engineForce
      let cap := if car.isNitroActive = true then maxSpeed * 1.4 else maxSpeed
      { car with velocity := min (car.velocity + engineForce) cap }
    else
      let car := { car with isBraking := true }
      let bf := brakeForce * 0.5 * dt
      { car with velocity := min 0 (car.velocity + bf) }
  else if keys.arrowDown = true ∨ keys.s = true then
    let car := { car with isBraking := true }
    if 0 < car.velocity then
      let bf := brakeForce * dt
      let driftBrakeReduction := if car.isDrifting = true then (0.25 : ℝ) else 1.0
      let speedFactor := car.velocity / maxSpeed
      let progressiveFactor := 0.05 + speedFactor ^ 2 * 0.6
      let effectiveBrakeForce := bf * progressiveFactor * driftBrakeReduction
      let actualDeceleration := min (car.velocity * 0.05) effectiveBrakeForce
      { car with velocity := max 0 (car.velocity - actualDeceleration) }
    else if car.velocity = 0 then
      { car with velocity := -0.2 }
    else
      let reverseForce := enginePower * 0.2 * dt
      let reverseSpeedRatio := |car.velocity| / (maxSpeed / 3)
      let reverseAcceleration := reverseForce * (1 - reverseSpeedRatio ^ (1.2 : ℝ))
      { car with velocity := max (car.velocity - reverseAcceleration) (-(maxSpeed / 3)) }
  else
    if 0 < car.velocity then
      let drag := calculateDragForce car.velocity dt
      let rollingRes := calculateRollingResistance car.velocity dt
      let driftBrakeReduction := if car.isDrifting = true then (0.2 : ℝ) else 1.0
      let engineBraking := car.velocity * engineBrakingFactor * dt * driftBrakeReduction
      let speedRatio := car.velocity / maxSpeed
      let progressiveFactor := 0.5 + speedRatio * 0.5
      let totalDeceleration :=
        min car.velocity ((drag + rollingRes + engineBraking) * progressiveFactor)
      let car := { car with velocity := car.velocity - totalDeceleration }
      if 0.1 < engineBraking then { car with isBraking := true } else car
    else if car.velocity < 0 then
      let drag := calculateDragForce car.velocity dt
      let rollingRes := calculateRollingResistance car.velocity dt
      let totalDeceleration := min |car.velocity| (drag + rollingRes)
      { car with velocity := car.velocity + totalDeceleration }
    else car

/-- Car.js `update`, lines 385–393: steering input. -/
def steeringStep (car : CarState) (keys : Keys) : CarState :=
  let car := { car with steeringAngle := 0 }
  if keys.arrowLeft = true ∨ keys.a = true then
    { car with steeringAngle := 1 * calculateSteeringFactor car.velocity }
  else if keys.arrowRight = true ∨ keys.d = true then
    { car with steeringAngle := -1 * calculateSteeringFactor car.velocity }
  else car

/-- Car.js `update`, lines 399–437: drift scoring, the drift-end commit and
its nitro recovery (the floating drift-points text is omitted). -/
def driftScoringStep (car : CarState) (wasDrifting : Bool) (dt : ℝ) :
    CarState × List GameEvent :=
  if car.isDrifting = true then
    if ¬ wasDrifting = true then
      ({ car with activeDriftPoints := 0, driftPointsMultiplier := 1.0 }, [])
    else
      let speedFactor := min 1.0 (car.velocity / maxSpeed)
      let driftPointsMultiplier := min 5.0 (1.0 + car.driftDuration / 2.0)
      let pointsThisFrame := driftPointsBase * speedFactor * driftPointsMultiplier * dt
      ({ car with
          driftPointsMultiplier := driftPointsMultiplier
          activeDriftPoints := car.activeDriftPoints + pointsThisFrame }, [])
  else if wasDrifting = true then
    let finalPoints := ⌊car.activeDriftPoints⌋
    let car := { car with
      totalScore := car.totalScore + (finalPoints : ℝ)
      currentNitro := min 100 (car.currentNitro + (finalPoints : ℝ) * nitroRecoveryFromDrift)
      activeDriftPoints := 0 }
    (car, [GameEvent.driftScore finalPoints car.totalScore car.position])
  else (car, [])

/-- Car.js `update`, lines 439–445: velocity maintenance when accelerating
during a drift. -/
def driftAccelStep (car : CarState) (keys : Keys) : CarState :=
  if (keys.arrowUp = true ∨ keys.w = true) ∧ car.isDrifting = true ∧ 0 < car.velocity then
    let minVelocity := max (car.velocity * 0.95) driftInitiationSpeed
    { car with velocity := max car.velocity minVelocity }
  else car

/-- Car.js `update`, lines 447–462: drift duration and intensity. -/
def driftTimingStep (car : CarState) (wasDrifting : Bool) (dt : ℝ) : CarState :=
  if car.isDrifting = true then
    if ¬ wasDrifting = true then { car with driftDuration := 0, driftIntensity := 0 }
    else
      let driftDuration := min (car.driftDuration + dt) maxDriftDuration
      { car with
        driftDuration := driftDuration
        driftIntensity := min 1.0 (driftDuration / (maxDriftDuration * 0.5)) }
  else if wasDrifting = true then { car with driftDuration := 0, driftIntensity := 0 }
  else car

/-- Car.js `update`, lines 464–474: heading integration from steering. -/
def rotationStep (car : CarState) (dt : ℝ) : CarState :=
  let effectiveTurnSpeed := if car.isDrifting = true then turnSpeed * 1.7 else turnSpeed
  { car with rotationY := car.rotationY +
      car.steeringAngle * effectiveTurnSpeed * dt * (|car.velocity| / maxSpeed) }

/-- Car.js `update`, lines 476–481: heading-locked velocity vector when not
drifting. -/
def velocityVectorStep (car : CarState) : CarState :=
  if car.isDrifting = true then car
  else { car with velocityVector := (forwardDir car.rotationY).multiplyScalar car.velocity }

/-- Car.js `update`, lines 483–496: the drift physics call and the
back-derivation of the speed scalar from the vector's length. -/
def driftPhysicsStep (car : CarState) (dt : ℝ) : CarState :=
  if car.isDrifting = true then
    let car := (Physics.calculateDrift car car.steeringAngle car.isDrifting dt).1
    { car with velocity := car.velocityVector.length * Real.sign car.velocity }
  else car

/-- Car.js `update`, lines 501–502: position integration. -/
def positionStep (car : CarState) (dt : ℝ) : CarState :=
  { car with position := car.position.add (car.velocityVector.multiplyScalar dt) }

/-- Car.js `update`, lines 504–540: spin detection and the spin bonus. -/
def spinStep (car : CarState) (dt : ℝ) : CarState × List GameEvent :=
  let rotationDelta := car.rotationY - car.prevRotation
  let normalizedDelta := jsRem (rotationDelta + Real.pi) (Real.pi * 2) - Real.pi
  let spinRate := |normalizedDelta / dt|
  let car := { car with spinRate := spinRate }
  let wasSpinning := car.isSpinning
  let car := { car with
    isSpinning := if spinThreshold < spinRate ∧ 5 < |car.velocity| then true else false }
  if car.isSpinning = true then
    ({ car with
        spinTime := car.spinTime + dt
        spinScore := car.spinScore + dt * spinRate * |car.velocity| * 0.1 }, [])
  else if wasSpinning = true ∧ car.isSpinning = false ∧ 0.5 < car.spinTime then
    let spinBonus := ⌊car.spinScore * 2.5⌋
    ({ car with spinTime := 0, spinScore := 0 },
      [GameEvent.spinout spinBonus car.spinTime car.position])
  else if car.isSpinning = false then
    ({ car with spinTime := 0, spinScore := 0 }, [])
  else (car, [])

/-- Car.js `update`, lines 395–540: the part of the frame from the drift
flag (line 397) onward — drift scoring, drift timing, steering application,
drift physics, friction, position integration and spin detection. -/
def updateTail (car : CarState) (keys : Keys) (dt : ℝ) (wasDrifting : Bool) :
    CarState × List GameEvent :=
  let car := { car with isDrifting :=
    if keys.space = true ∧ driftInitiationSpeed < |car.velocity| then true else false }
  let scored := driftScoringStep car wasDrifting dt
  let car := driftAccelStep scored.1 keys
  let car := driftTimingStep car wasDrifting dt
  let car := rotationStep car dt
  let car := velocityVectorStep car
  let car := driftPhysicsStep car dt
  let car := Physics.applyFriction car dt car.isDrifting
  let car := positionStep car dt
  let spun := spinStep car dt
  (spun.1, scored.2 ++ spun.2)

/-- Car.js `update`: one full frame of the vehicle simulation.  Returns the
new state and the list of `CustomEvent`s dispatched during the frame. -/
def update (car : CarState) (keys : Keys) (dt : ℝ) : CarState × List GameEvent :=
  if keys.r = true then (restart car, [])
  else if car.isCollided = true then
    let car := { car with collisionTimer := car.collisionTimer + dt }
    if collisionRecoveryTime ≤ car.collisionTimer then (revive car, [])
    else (car, [])
  else
    let car := { car with isBraking := false, isAccelerating := false }
    let car := nitroStep car keys dt
    let car := { car with prevRotation := car.rotationY }
    let car := inputStep car keys dt
    let car := steeringStep car keys
    updateTail car keys dt car.isDrifting

end Car

/-! ### GameState (src/core/GameState.js) -/

def maxDriftMultiplier : ℝ := 8
def driftChainTimeout : ℝ := 1.5
def gameTimeLimit : ℝ := 30

/-- The state of `GameState` (leaderboard service and DOM events omitted). -/
structure GameState where
  score : ℝ
  highScore : ℝ
  driftMultiplier : ℝ
  driftChainTimer : ℝ
  gameOver : Bool
  isFirstGame : Bool
  timeRemaining : ℝ
  isTimerRunning : Bool

/-- GameState.js `addScore`: gated on the running session clock, scaled by
the chain multiplier. -/
def GameState.addScore (g : GameState) (points : ℝ) : GameState :=
  if g.isTimerRunning = true then
    let g := { g with score := g.score + points * g.driftMultiplier }
    if g.highScore < g.score then { g with highScore := g.score } else g
  else g

/-- GameState.js `resetScore`. -/
def GameState.resetScore (g : GameState) : GameState :=
  { g with
    score := 0
    driftMultiplier := 1
    driftChainTimer := 0
    gameOver := false
    isFirstGame := false
    timeRemaining := gameTimeLimit
    isTimerRunning := false }

/-- GameState.js `updateDriftMultiplier` (state effect only; the
score-update notification is omitted). -/
def GameState.updateDriftMultiplier (g : GameState) (isDrifting : Bool) (dt : ℝ) :
    GameState :=
  if isDrifting = true then
    { g with
      driftChainTimer := 0
      driftMultiplier := min (g.driftMultiplier + dt * 0.5) maxDriftMultiplier }
  else
    let g := { g with driftChainTimer := g.driftChainTimer + dt }
    if driftChainTimeout ≤ g.driftChainTimer then
      if 1 < g.driftMultiplier then { g with driftMultiplier := 1 } else g
    else g

/-- The number of `driftScore` events in a frame's event list. -/
def countDriftScore (evs : List GameEvent) : ℕ :=
  (evs.filter fun e => match e with
    | GameEvent.driftScore _ _ _ => true
    | _ => false).length

/-- The number of `spinout` events in a frame's event list. -/
def countSpinout (evs : List GameEvent) : ℕ :=
  (evs.filter fun e => match e with
    | GameEvent.spinout _ _ _ => true
    | _ => false).length

/-! ### Step bookkeeping lemmas

Each per-frame phase of `Car.update` touches only a few fields; these lemmas
record which fields pass through each phase unchanged.  They drive the
symbolic (non-concrete) claim proofs. -/

namespace Car

lemma nitroStep_fields (car : CarState) (k : Keys) (dt : ℝ) :
    (nitroStep car k dt).velocity = car.velocity ∧
    (nitroStep car k dt).totalScore = car.totalScore ∧
    (nitroStep car k dt).activeDriftPoints = car.activeDriftPoints ∧
    (nitroStep car k dt).isDrifting = car.isDrifting ∧
    (nitroStep car k dt).position = car.position ∧
    (nitroStep car k dt).rotationY = car.rotationY ∧
    (nitroStep car k dt).isSpinning = car.isSpinning ∧
    (nitroStep car k dt).spinTime = car.spinTime ∧
    (nitroStep car k dt).spinScore = car.spinScore ∧
    (nitroStep car k dt).prevRotation = car.prevRotation := by
  simp only [nitroStep]
  split_ifs <;> exact ⟨rfl, rfl, rfl, rfl, rfl, rfl, rfl, rfl, rfl, rfl⟩

lemma inputStep_fields (car : CarState) (k : Keys) (dt : ℝ) :
    (inputStep car k dt).totalScore = car.totalScore ∧
    (inputStep car k dt).activeDriftPoints = car.activeDriftPoints ∧
    (inputStep car k dt).currentNitro = car.currentNitro ∧
    (inputStep car k dt).isDrifting = car.isDrifting ∧
    (inputStep car k dt).position = car.position ∧
    (inputStep car k dt).rotationY = car.rotationY ∧
    (inputStep car k dt).isSpinning = car.isSpinning ∧
    (inputStep car k dt).spinTime = car.spinTime ∧
    (inputStep car k dt).spinScore = car.spinScore ∧
    (inputStep car k dt).prevRotation = car.prevRotation := by
  simp only [inputStep]
  split_ifs <;> exact ⟨rfl, rfl, rfl, rfl, rfl, rfl, rfl, rfl, rfl, rfl⟩

lemma steeringStep_fields (car : CarState) (k : Keys) :
    (steeringStep car k).velocity = car.velocity ∧
    (steeringStep car k).totalScore = car.totalScore ∧
    (steeringStep car k).activeDriftPoints = car.activeDriftPoints ∧
    (steeringStep car k).currentNitro = car.currentNitro ∧
    (steeringStep car k).isDrifting = car.isDrifting ∧
    (steeringStep car k).position = car.position ∧
    (steeringStep car k).rotationY = car.rotationY ∧
    (steeringStep car k).isSpinning = car.isSpinning ∧
    (steeringStep car k).spinTime = car.spinTime ∧
    (steeringStep car k).spinScore = car.spinScore ∧
    (steeringStep car k).prevRotation = car.prevRotation := by
  simp only [steeringStep]
  split_ifs <;> exact ⟨rfl, rfl, rfl, rfl, rfl, rfl, rfl, rfl, rfl, rfl, rfl⟩

lemma driftAccelStep_fields (car : CarState) (k : Keys) :
    (driftAccelStep car k).totalScore = car.totalScore ∧
    (driftAccelStep car k).activeDriftPoints = car.activeDriftPoints ∧
    (driftAccelStep car k).currentNitro = car.currentNitro ∧
    (driftAccelStep car k).isDrifting = car.isDrifting ∧
    (driftAccelStep car k).position = car.position ∧
    (driftAccelStep car k).rotationY = car.rotationY ∧
    (driftAccelStep car k).isSpinning = car.isSpinning ∧
    (driftAccelStep car k).spinTime = car.spinTime ∧
    (driftAccelStep car k).spinScore = car.spinScore ∧
    (driftAccelStep car k).prevRotation = car.prevRotation := by
  simp only [driftAccelStep]
  split_ifs <;> exact ⟨rfl, rfl, rfl, rfl, rfl, rfl, rfl, rfl, rfl, rfl⟩

lemma driftTimingStep_fields (car : CarState) (w : Bool) (dt : ℝ) :
    (driftTimingStep car w dt).velocity = car.velocity ∧
    (driftTimingStep car w dt).totalScore = car.totalScore ∧
    (driftTimingStep car w dt).activeDriftPoints = car.activeDriftPoints ∧
    (driftTimingStep car w dt).currentNitro = car.currentNitro ∧
    (driftTimingStep car w dt).isDrifting = car.isDrifting ∧
    (driftTimingStep car w dt).position = car.position ∧
    (driftTimingStep car w dt).rotationY = car.rotationY ∧
    (driftTimingStep car w dt).isSpinning = car.isSpinning ∧
    (driftTimingStep car w dt).spinTime = car.spinTime ∧
    (driftTimingStep car w dt).spinScore = car.spinScore ∧
    (driftTimingStep car w dt).prevRotation = car.prevRotation := by
  simp only [driftTimingStep]
  split_ifs <;> exact ⟨rfl, rfl, rfl, rfl, rfl, rfl, rfl, rfl, rfl, rfl, rfl⟩

lemma rotationStep_fields (car : CarState) (dt : ℝ) :
    (rotationStep car dt).velocity = car.velocity ∧
    (rotationStep car dt).totalScore = car.totalScore ∧
    (rotationStep car dt).activeDriftPoints = car.activeDriftPoints ∧
    (rotationStep car dt).currentNitro = car.currentNitro ∧
    (rotationStep car dt).isDrifting = car.isDrifting ∧
    (rotationStep car dt).position = car.position ∧
    (rotationStep car dt).isSpinning = car.isSpinning ∧
    (rotationStep car dt).spinTime = car.spinTime ∧
    (rotationStep car dt).spinScore = car.spinScore ∧
    (rotationStep car dt).prevRotation = car.prevRotation := by
  exact ⟨rfl, rfl, rfl, rfl, rfl, rfl, rfl, rfl, rfl, rfl⟩

lemma velocityVectorStep_fields (car : CarState) :
    (velocityVectorStep car).velocity = car.velocity ∧
    (velocityVectorStep car).totalScore = car.totalScore ∧
    (velocityVectorStep car).activeDriftPoints = car.activeDriftPoints ∧
    (velocityVectorStep car).currentNitro = car.currentNitro ∧
    (velocityVectorStep car).isDrifting = car.isDrifting ∧
    (velocityVectorStep car).position = car.position ∧
    (velocityVectorStep car).rotationY = car.rotationY ∧
    (velocityVectorStep car).isSpinning = car.isSpinning ∧
    (velocityVectorStep car).spinTime = car.spinTime ∧
    (velocityVectorStep car).spinScore = car.spinScore ∧
    (velocityVectorStep car).prevRotation = car.prevRotation := by
  simp only [velocityVectorStep]
  split_ifs <;> exact ⟨rfl, rfl, rfl, rfl, rfl, rfl, rfl, rfl, rfl, rfl, rfl⟩

lemma driftPhysicsStep_fields (car : CarState) (dt : ℝ) :
    (driftPhysicsStep car dt).totalScore = car.totalScore ∧
    (driftPhysicsStep car dt).activeDriftPoints = car.activeDriftPoints ∧
    (driftPhysicsStep car dt).currentNitro = car.currentNitro ∧
    (driftPhysicsStep car dt).isDrifting = car.isDrifting ∧
    (driftPhysicsStep car dt).position = car.position ∧
    (driftPhysicsStep car dt).rotationY = car.rotationY ∧
    (driftPhysicsStep car dt).isSpinning = car.isSpinning ∧
    (driftPhysicsStep car dt).spinTime = car.spinTime ∧
    (driftPhysicsStep car dt).spinScore = car.spinScore ∧
    (driftPhysicsStep car dt).prevRotation = car.prevRotation := by
  simp only [driftPhysicsStep, Physics.calculateDrift]
  split_ifs <;> exact ⟨rfl, rfl, rfl, rfl, rfl, rfl, rfl, rfl, rfl, rfl⟩

lemma applyFriction_fields (car : CarState) (dt : ℝ) (d : Bool) :
    (Physics.applyFriction car dt d).totalScore = car.totalScore ∧
    (Physics.applyFriction car dt d).activeDriftPoints = car.activeDriftPoints ∧
    (Physics.applyFriction car dt d).currentNitro = car.currentNitro ∧
    (Physics.applyFriction car dt d).isDrifting = car.isDrifting ∧
    (Physics.applyFriction car dt d).position = car.position ∧
    (Physics.applyFriction car dt d).rotationY = car.rotationY ∧
    (Physics.applyFriction car dt d).isSpinning = car.isSpinning ∧
    (Physics.applyFriction car dt d).spinTime = car.spinTime ∧
    (Physics.applyFriction car dt d).spinScore = car.spinScore ∧
    (Physics.applyFriction car dt d).prevRotation = car.prevRotation := by
  simp only [Physics.applyFriction]
  split_ifs <;> exact ⟨rfl, rfl, rfl, rfl, rfl, rfl, rfl, rfl, rfl, rfl⟩

/-- The drift-start branch of the scoring step (false→true transition). -/
lemma driftScoringStep_start (car : CarState) (dt : ℝ)
    (h : car.isDrifting = true) (hw : w = false) :
    driftScoringStep car w dt
      = ({ car with activeDriftPoints := 0, driftPointsMultiplier := 1.0 }, []) := by
  simp [driftScoringStep, h, hw]

/-- The accumulation branch of the scoring step (drift held). -/
lemma driftScoringStep_hold (car : CarState) (dt : ℝ)
    (h : car.isDrifting = true) (hw : w = true) :
    driftScoringStep car w dt
      = ({ car with
            driftPointsMultiplier := min 5.0 (1.0 + car.driftDuration / 2.0)
            activeDriftPoints := car.activeDriftPoints +
              driftPointsBase * min 1.0 (car.velocity / maxSpeed) *
                min 5.0 (1.0 + car.driftDuration / 2.0) * dt }, []) := by
  simp [driftScoringStep, h, hw]

/-- The commit branch of the scoring step (true→false transition). -/
lemma driftScoringStep_commit (car : CarState) (dt : ℝ)
    (h : car.isDrifting = false) (hw : w = true) :
    driftScoringStep car w dt
      = ({ car with
            totalScore := car.totalScore + (⌊car.activeDriftPoints⌋ : ℝ)
            currentNitro := min 100 (car.currentNitro +
              (⌊car.activeDriftPoints⌋ : ℝ) * nitroRecoveryFromDrift)
            activeDriftPoints := 0 },
          [GameEvent.driftScore ⌊car.activeDriftPoints⌋
            (car.totalScore + (⌊car.activeDriftPoints⌋ : ℝ)) car.position]) := by
  simp [driftScoringStep, h, hw]

/-- The no-drift branch of the scoring step. -/
lemma driftScoringStep_none (car : CarState) (dt : ℝ)
    (h : car.isDrifting = false) (hw : w = false) :
    driftScoringStep car w dt = (car, []) := by
  simp [driftScoringStep, h, hw]

lemma positionStep_fields (car : CarState) (dt : ℝ) :
    (positionStep car dt).velocity = car.velocity ∧
    (positionStep car dt).totalScore = car.totalScore ∧
    (positionStep car dt).activeDriftPoints = car.activeDriftPoints ∧
    (positionStep car dt).currentNitro = car.currentNitro ∧
    (positionStep car dt).isDrifting = car.isDrifting ∧
    (positionStep car dt).rotationY = car.rotationY ∧
    (positionStep car dt).isSpinning = car.isSpinning ∧
    (positionStep car dt).spinTime = car.spinTime ∧
    (positionStep car dt).spinScore = car.spinScore ∧
    (positionStep car dt).prevRotation = car.prevRotation := by
  exact ⟨rfl, rfl, rfl, rfl, rfl, rfl, rfl, rfl, rfl, rfl⟩

lemma spinStep_fields (car : CarState) (dt : ℝ) :
    (spinStep car dt).1.velocity = car.velocity ∧
    (spinStep car dt).1.totalScore = car.totalScore ∧
    (spinStep car dt).1.activeDriftPoints = car.activeDriftPoints ∧
    (spinStep car dt).1.currentNitro = car.currentNitro ∧
    (spinStep car dt).1.isDrifting = car.isDrifting ∧
    (spinStep car dt).1.rotationY = car.rotationY ∧
    countDriftScore (spinStep car dt).2 = 0 := by
  simp only [spinStep, countDriftScore]
  split_ifs <;> exact ⟨rfl, rfl, rfl, rfl, rfl, rfl, rfl⟩

lemma nitroStep_nitro_reset (s : CarState) (k : Keys) (dt : ℝ) :
    (nitroStep { s with isBraking := false, isAccelerating := false } k dt).currentNitro
      = (nitroStep s k dt).currentNitro := by
  simp only [nitroStep]
  split_ifs <;> rfl

/-- `Car.update` on a normal frame (no restart request, not crashed) is
`updateTail` applied to a pre-drift state that carries the frame-start
bookkeeping fields unchanged (nitro already advanced by `nitroStep`). -/
lemma update_normal (s : CarState) (k : Keys) (dt : ℝ)
    (hr : k.r = false) (hc : s.isCollided = false) :
    ∃ c : CarState,
      c.totalScore = s.totalScore ∧
      c.activeDriftPoints = s.activeDriftPoints ∧
      c.currentNitro = (nitroStep s k dt).currentNitro ∧
      c.isDrifting = s.isDrifting ∧
      c.position = s.position ∧
      c.rotationY = s.rotationY ∧
      c.prevRotation = s.rotationY ∧
      c.isSpinning = s.isSpinning ∧
      c.spinTime = s.spinTime ∧
      c.spinScore = s.spinScore ∧
      update s k dt = updateTail c k dt c.isDrifting := by
  refine ⟨steeringStep (inputStep
    { nitroStep { s with isBraking := false, isAccelerating := false } k dt with
      prevRotation :=
        (nitroStep { s with isBraking := false, isAccelerating := false } k dt).rotationY }
    k dt) k, ?_, ?_, ?_, ?_, ?_, ?_, ?_, ?_, ?_, ?_, ?_⟩
  · simp only [steeringStep_fields, inputStep_fields, nitroStep_fields]
  · simp only [steeringStep_fields, inputStep_fields, nitroStep_fields]
  · simp only [steeringStep_fields, inputStep_fields, nitroStep_nitro_reset]
  · simp only [steeringStep_fields, inputStep_fields, nitroStep_fields]
  · simp only [steeringStep_fields, inputStep_fields, nitroStep_fields]
  · simp only [steeringStep_fields, inputStep_fields, nitroStep_fields]
  · simp only [steeringStep_fields, inputStep_fields, nitroStep_fields]
  · simp only [steeringStep_fields, inputStep_fields, nitroStep_fields]
  · simp only [steeringStep_fields, inputStep_fields, nitroStep_fields]
  · simp only [steeringStep_fields, inputStep_fields, nitroStep_fields]
  · unfold update
    rw [if_neg (by simp [hr]), if_neg (by simp [hc])]

/-- All branches of the scoring step leave the non-scoring fields alone. -/
lemma driftScoringStep_other_fields (car : CarState) (w : Bool) (dt : ℝ) :
    (driftScoringStep car w dt).1.velocity = car.velocity ∧
    (driftScoringStep car w dt).1.isDrifting = car.isDrifting ∧
    (driftScoringStep car w dt).1.position = car.position ∧
    (driftScoringStep car w dt).1.rotationY = car.rotationY ∧
    (driftScoringStep car w dt).1.prevRotation = car.prevRotation ∧
    (driftScoringStep car w dt).1.isSpinning = car.isSpinning ∧
    (driftScoringStep car w dt).1.spinTime = car.spinTime ∧
    (driftScoringStep car w dt).1.spinScore = car.spinScore ∧
    (driftScoringStep car w dt).1.driftDuration = car.driftDuration := by
  simp only [driftScoringStep]
  split_ifs <;> exact ⟨rfl, rfl, rfl, rfl, rfl, rfl, rfl, rfl, rfl⟩

end Car

lemma countDriftScore_append (l1 l2 : List GameEvent) :
    countDriftScore (l1 ++ l2) = countDriftScore l1 + countDriftScore l2 := by
  simp [countDriftScore, List.filter_append]

lemma countSpinout_append (l1 l2 : List GameEvent) :
    countSpinout (l1 ++ l2) = countSpinout l1 + countSpinout l2 := by
  simp [countSpinout, List.filter_append]

/-! ### Numeric evaluation helpers

Small closed facts about `π`, square roots of literal squares, `Real.sign`
and `rpow`, used when evaluating concrete frames. -/

lemma pi_div_pi_two : Real.pi / (Real.pi * 2) = 1 / 2 := by
  rw [div_eq_iff (by positivity)]; ring

lemma not_pi720_lt_zero : (Real.pi * (7/20) < 0) = False := by
  simp only [eq_iff_iff, iff_false, not_lt]
  positivity

lemma pi720_lt_pi : (Real.pi * (7/20) < Real.pi) = True := by
  simp only [eq_iff_iff, iff_true]
  nlinarith [Real.pi_pos]

lemma sign_neg25_3 : Real.sign (-(25/3) : ℝ) = -1 := Real.sign_of_neg (by norm_num)

lemma sqrt_24433249 : Real.sqrt 24433249 = 4943 := by
  rw [show (24433249:ℝ) = 4943^2 by norm_num, Real.sqrt_sq (by norm_num)]

lemma sqrt_90000 : Real.sqrt 90000 = 300 := by
  rw [show (90000:ℝ) = 300^2 by norm_num, Real.sqrt_sq (by norm_num)]

lemma sqrt_961 : Real.sqrt 961 = 31 := by
  rw [show (961:ℝ) = 31^2 by norm_num, Real.sqrt_sq (by norm_num)]

lemma sqrt_16 : Real.sqrt 16 = 4 := by
  rw [show (16:ℝ) = 4^2 by norm_num, Real.sqrt_sq (by norm_num)]

lemma sqrt_529 : Real.sqrt 529 = 23 := by
  rw [show (529:ℝ) = 23^2 by norm_num, Real.sqrt_sq (by norm_num)]

lemma sqrt_9 : Real.sqrt 9 = 3 := by
  rw [show (9:ℝ) = 3^2 by norm_num, Real.sqrt_sq (by norm_num)]

lemma sqrt_20948929 : Real.sqrt 20948929 = 4577 := by
  rw [show (20948929:ℝ) = 4577^2 by norm_num, Real.sqrt_sq (by norm_num)]

lemma sqrt_360000 : Real.sqrt 360000 = 600 := by
  rw [show (360000:ℝ) = 600^2 by norm_num, Real.sqrt_sq (by norm_num)]

lemma sqrt_20043529 : Real.sqrt 20043529 = 4477 := by
  rw [show (20043529:ℝ) = 4477^2 by norm_num, Real.sqrt_sq (by norm_num)]

lemma sqrt_19598329 : Real.sqrt 19598329 = 4427 := by
  rw [show (19598329:ℝ) = 4427^2 by norm_num, Real.sqrt_sq (by norm_num)]

lemma sqrt_13225 : Real.sqrt 13225 = 115 := by
  rw [show (13225:ℝ) = 115^2 by norm_num, Real.sqrt_sq (by norm_num)]

lemma sqrt_28912129 : Real.sqrt 28912129 = 5377 := by
  rw [show (28912129:ℝ) = 5377^2 by norm_num, Real.sqrt_sq (by norm_num)]

lemma sqrt_25600 : Real.sqrt 25600 = 160 := by
  rw [show (25600:ℝ) = 160^2 by norm_num, Real.sqrt_sq (by norm_num)]

/-- The full effect of a drift-end commit frame (shared helper). -/
lemma update_commit_effects (s : CarState) (k : Keys) (dt : ℝ)
    (hr : k.r = false) (hc : s.isCollided = false) (hd : s.isDrifting = true)
    (hend : (Car.update s k dt).1.isDrifting = false) :
    countDriftScore (Car.update s k dt).2 = 1 ∧
    (Car.update s k dt).2.head? = some (GameEvent.driftScore ⌊s.activeDriftPoints⌋
      (s.totalScore + (⌊s.activeDriftPoints⌋ : ℝ)) s.position) ∧
    (Car.update s k dt).1.totalScore = s.totalScore + (⌊s.activeDriftPoints⌋ : ℝ) ∧
    (Car.update s k dt).1.currentNitro
      = min 100 ((Car.nitroStep s k dt).currentNitro
          + (⌊s.activeDriftPoints⌋ : ℝ) * nitroRecoveryFromDrift) ∧
    (Car.update s k dt).1.activeDriftPoints = 0 := by
  obtain ⟨c, hts, hadp, hnit, hdr, hpos, hrot, hprev, hsp, hst, hss, hupd⟩ :=
    Car.update_normal s k dt hr hc
  rw [hupd] at hend ⊢
  rw [hdr, hd] at hend ⊢
  have hbf : (Car.updateTail c k dt true).1.isDrifting
      = (if k.space = true ∧ driftInitiationSpeed < |c.velocity| then true else false) := by
    simp only [Car.updateTail]
    simp only [Car.spinStep_fields, Car.positionStep_fields, Car.applyFriction_fields,
      Car.driftPhysicsStep_fields, Car.velocityVectorStep_fields, Car.rotationStep_fields,
      Car.driftTimingStep_fields, Car.driftAccelStep_fields,
      Car.driftScoringStep_other_fields]
  have hb : (if k.space = true ∧ driftInitiationSpeed < |c.velocity| then true else false)
      = false := by rw [← hbf]; exact hend
  simp only [Car.updateTail, hb]
  rw [Car.driftScoringStep_commit _ dt rfl rfl]
  refine ⟨?_, ?_, ?_, ?_, ?_⟩
  · rw [countDriftScore_append]
    simp only [Car.spinStep_fields]
    simp [countDriftScore]
  · simp [hadp, hts, hpos]
  · simp only [Car.spinStep_fields, Car.positionStep_fields, Car.applyFriction_fields,
      Car.driftPhysicsStep_fields, Car.velocityVectorStep_fields, Car.rotationStep_fields,
      Car.driftTimingStep_fields, Car.driftAccelStep_fields]
    simp [hts, hadp]
  · simp only [Car.spinStep_fields, Car.positionStep_fields, Car.applyFriction_fields,
      Car.driftPhysicsStep_fields, Car.velocityVectorStep_fields, Car.rotationStep_fields,
      Car.driftTimingStep_fields, Car.driftAccelStep_fields]
    simp [hnit, hadp]
  · simp only [Car.spinStep_fields, Car.positionStep_fields, Car.applyFriction_fields,
      Car.driftPhysicsStep_fields, Car.velocityVectorStep_fields, Car.rotationStep_fields,
      Car.driftTimingStep_fields, Car.driftAccelStep_fields]

/-- C2: on a true→false transition of the drift flag, `Car.update` emits
exactly one `driftScore` event whose point value is the floor of the pending
bucket, adds that value to the cumulative total, recovers nitro by
`points × nitroRecoveryFromDrift` clamped at 100 (on top of the frame's
nitro depletion step), and resets the bucket to 0. -/
theorem driftEnd_commit_scores_once (s : CarState) (k : Keys) (dt : ℝ)
    (hr : k.r = false) (hc : s.isCollided = false) (hd : s.isDrifting = true)
    (hend : (Car.update s k dt).1.isDrifting = false) :
    countDriftScore (Car.update s k dt).2 = 1 ∧
    (Car.update s k dt).2.head? = some (GameEvent.driftScore ⌊s.activeDriftPoints⌋
      (s.totalScore + (⌊s.activeDriftPoints⌋ : ℝ)) s.position) ∧
    (Car.update s k dt).1.totalScore = s.totalScore + (⌊s.activeDriftPoints⌋ : ℝ) ∧
    (Car.update s k dt).1.currentNitro
      = min 100 ((Car.nitroStep s k dt).currentNitro
          + (⌊s.activeDriftPoints⌋ : ℝ) * nitroRecoveryFromDrift) ∧
    (Car.update s k dt).1.activeDriftPoints = 0 :=
  update_commit_effects s k dt hr hc hd hend

/-- Witness for C2: a drifting car with a pending bucket of 7.5 points, 50
nitro and speed 10 releases the drift key; exactly one `driftScore` event
with 7 points is emitted. -/
theorem driftEnd_commit_scores_once_witness :
    (⟨10, ⟨0,0,-10⟩, ⟨20,0,20⟩, 0, 0, 50, false, true, false, false,
        0, 1, 1, 0, 20, 15/2, 3, 0, false, 0, 0, false, 0⟩ : CarState).isDrifting = true ∧
    (Car.update
      ⟨10, ⟨0,0,-10⟩, ⟨20,0,20⟩, 0, 0, 50, false, true, false, false,
        0, 1, 1, 0, 20, 15/2, 3, 0, false, 0, 0, false, 0⟩
      ⟨false, false, false, false, false, false, false, false, false, false, false⟩
      (1/10)).1.isDrifting = false ∧
    countDriftScore (Car.update
      ⟨10, ⟨0,0,-10⟩, ⟨20,0,20⟩, 0, 0, 50, false, true, false, false,
        0, 1, 1, 0, 20, 15/2, 3, 0, false, 0, 0, false, 0⟩
      ⟨false, false, false, false, false, false, false, false, false, false, false⟩
      (1/10)).2 = 1 ∧
    (Car.update
      ⟨10, ⟨0,0,-10⟩, ⟨20,0,20⟩, 0, 0, 50, false, true, false, false,
        0, 1, 1, 0, 20, 15/2, 3, 0, false, 0, 0, false, 0⟩
      ⟨false, false, false, false, false, false, false, false, false, false, false⟩
      (1/10)).1.totalScore = 20 + ((⌊(15/2 : ℝ)⌋ : ℤ) : ℝ) := by
  have hend : (Car.update
      ⟨10, ⟨0,0,-10⟩, ⟨20,0,20⟩, 0, 0, 50, false, true, false, false,
        0, 1, 1, 0, 20, 15/2, 3, 0, false, 0, 0, false, 0⟩
      ⟨false, false, false, false, false, false, false, false, false, false, false⟩
      (1/10)).1.isDrifting = false := by
    norm_num [Car.update, Car.updateTail, Car.nitroStep, Car.inputStep, Car.steeringStep,
      Car.driftScoringStep, Car.driftAccelStep, Car.driftTimingStep, Car.rotationStep,
      Car.velocityVectorStep, Car.driftPhysicsStep, Physics.applyFriction, Car.positionStep,
      Car.spinStep, maxSpeed, enginePower, brakeForce, rollingResistance, dragCoefficient,
      engineBrakingFactor, driftInitiationSpeed, maxDriftDuration, driftPointsBase,
      spinThreshold, turnSpeed, friction, driftFriction, nitroRecoveryFromDrift,
      Car.calculateDragForce, Car.calculateRollingResistance, Car.calculateSteeringFactor,
      Vec3.add, Vec3.multiplyScalar, forwardDir, jsRem, jsTrunc, pi_div_pi_two,
      Real.sin_zero, Real.cos_zero, abs_of_pos, abs_of_neg]
  have h := driftEnd_commit_scores_once
    ⟨10, ⟨0,0,-10⟩, ⟨20,0,20⟩, 0, 0, 50, false, true, false, false,
        0, 1, 1, 0, 20, 15/2, 3, 0, false, 0, 0, false, 0⟩
    ⟨false, false, false, false, false, false, false, false, false, false, false⟩
    (1/10) rfl rfl rfl hend
  exact ⟨rfl, hend, h.1, h.2.2.1⟩

/-- C7: a restart request (`keys.r`) processed at any moment — crashed or
drifting included — returns position and heading to the spawn values and
zeroes speed, velocity vector, drift state, crash state and the pending
drift-point bucket, while leaving the cumulative total score untouched. -/
theorem restart_resets_transient_state (s : CarState) (k : Keys) (dt : ℝ)
    (hr : k.r = true) :
    (Car.update s k dt).1.position = initialPosition ∧
    (Car.update s k dt).1.rotationY = initialRotation ∧
    (Car.update s k dt).1.velocity = 0 ∧
    (Car.update s k dt).1.velocityVector = Vec3.zero ∧
    (Car.update s k dt).1.isDrifting = false ∧
    (Car.update s k dt).1.driftDuration = 0 ∧
    (Car.update s k dt).1.driftIntensity = 0 ∧
    (Car.update s k dt).1.isCollided = false ∧
    (Car.update s k dt).1.collisionTimer = 0 ∧
    (Car.update s k dt).1.activeDriftPoints = 0 ∧
    (Car.update s k dt).1.totalScore = s.totalScore ∧
    (Car.update s k dt).2 = [] := by
  simp [Car.update, Car.restart, hr]

/-- Witness for C7: restarting while crashed and mid-drift with a pending
bucket restores the spawn pose and keeps the accumulated total of 55. -/
theorem restart_resets_transient_state_witness :
    (⟨12, ⟨0,0,-12⟩, ⟨3,0,4⟩, 2, 2, 40, false, true, false, false,
        0, 1, 1, 0, 55, 9, 2, 0, false, 0, 0, true, 1⟩ : CarState).isCollided = true ∧
    (⟨false, false, false, false, false, false, false, false, false, false, true⟩
        : Keys).r = true ∧
    (Car.update
      ⟨12, ⟨0,0,-12⟩, ⟨3,0,4⟩, 2, 2, 40, false, true, false, false,
        0, 1, 1, 0, 55, 9, 2, 0, false, 0, 0, true, 1⟩
      ⟨false, false, false, false, false, false, false, false, false, false, true⟩
      (1/10)).1.position = initialPosition ∧
    (Car.update
      ⟨12, ⟨0,0,-12⟩, ⟨3,0,4⟩, 2, 2, 40, false, true, false, false,
        0, 1, 1, 0, 55, 9, 2, 0, false, 0, 0, true, 1⟩
      ⟨false, false, false, false, false, false, false, false, false, false, true⟩
      (1/10)).1.totalScore = 55 := by
  have h := restart_resets_transient_state
    ⟨12, ⟨0,0,-12⟩, ⟨3,0,4⟩, 2, 2, 40, false, true, false, false,
        0, 1, 1, 0, 55, 9, 2, 0, false, 0, 0, true, 1⟩
    ⟨false, false, false, false, false, false, false, false, false, false, true⟩
    (1/10) rfl
  exact ⟨rfl, rfl, h.1, h.2.2.2.2.2.2.2.2.2.2.1⟩

/-- C3 counterexample: a head-on strike at speed 20 does not leave the
claimed post-collision speed of 6 = 0.3 × 20: `handleCollision` multiplies
by 0.3 but `triggerCrash` (called by it on a first strike) multiplies by a
further 0.2, leaving 1.2. -/
theorem collision_strike_damping_cex :
    (Physics.handleCollision
      ⟨20, ⟨0,0,-20⟩, ⟨0,0,0⟩, 0, 0, 100, false, false, false, false,
        0, 0, 0, 0, 0, 0, 1, 0, false, 0, 0, false, 0⟩
      ⟨1/2, some ⟨0,0,1⟩⟩).velocity = 6/5 ∧ ((6/5 : ℝ) ≠ 0.3 * 20) := by
  constructor
  · norm_num [Physics.handleCollision, Car.triggerCrash, Vec3.reflect, Vec3.sub,
      Vec3.multiplyScalar, Vec3.dot, Option.getD]
  · norm_num

/-- C3 amended: a first strike multiplies speed by 0.3 in `handleCollision`
and by a further 0.2 in `triggerCrash` (net ×0.06), reflects the velocity
vector about the surface normal and scales the reflection by 0.5, and
enters the crashed state exactly once — `triggerCrash` is a no-op while
already crashed. -/
theorem collision_strike_response (s : CarState) (i : Physics.Intersection)
    (hc : s.isCollided = false) :
    (Physics.handleCollision s i).velocity = 0.06 * s.velocity ∧
    (Physics.handleCollision s i).velocityVector
      = (s.velocityVector.reflect (i.face.getD ⟨0,0,1⟩)).multiplyScalar 0.5 ∧
    (Physics.handleCollision s i).isCollided = true ∧
    (Physics.handleCollision s i).collisionTimer = 0 ∧
    (Physics.handleCollision s i).isDrifting = false ∧
    (∀ s' : CarState, s'.isCollided = true → Car.triggerCrash s' = s') := by
  refine ⟨?_, ?_, ?_, ?_, ?_, ?_⟩
  · simp [Physics.handleCollision, Car.triggerCrash, hc]; ring
  · simp [Physics.handleCollision, Car.triggerCrash, hc]
  · simp [Physics.handleCollision, Car.triggerCrash, hc]
  · simp [Physics.handleCollision, Car.triggerCrash, hc]
  · simp [Physics.handleCollision, Car.triggerCrash, hc]
  · intro s' h
    simp [Car.triggerCrash, h]

/-- Witness for the amended C3: a strike at speed 10 against a wall with
normal (1,0,0) leaves speed 0.6 and the crashed flag set. -/
theorem collision_strike_response_witness :
    (⟨10, ⟨-10,0,0⟩, ⟨0,0,0⟩, 0, 0, 100, false, true, false, false,
        0, 0, 0, 0, 0, 0, 1, 0, false, 0, 0, false, 0⟩ : CarState).isCollided = false ∧
    (Physics.handleCollision
      ⟨10, ⟨-10,0,0⟩, ⟨0,0,0⟩, 0, 0, 100, false, true, false, false,
        0, 0, 0, 0, 0, 0, 1, 0, false, 0, 0, false, 0⟩
      ⟨1/4, some ⟨1,0,0⟩⟩).velocity = 0.06 * 10 ∧
    (Physics.handleCollision
      ⟨10, ⟨-10,0,0⟩, ⟨0,0,0⟩, 0, 0, 100, false, true, false, false,
        0, 0, 0, 0, 0, 0, 1, 0, false, 0, 0, false, 0⟩
      ⟨1/4, some ⟨1,0,0⟩⟩).isCollided = true := by
  have h := collision_strike_response
    ⟨10, ⟨-10,0,0⟩, ⟨0,0,0⟩, 0, 0, 100, false, true, false, false,
        0, 0, 0, 0, 0, 0, 1, 0, false, 0, 0, false, 0⟩
    ⟨1/4, some ⟨1,0,0⟩⟩ rfl
  exact ⟨rfl, h.1, h.2.2.1⟩

/-- C9: while crashed (timer not yet expired, no restart), `Car.update`
only advances the recovery timer and emits nothing; a same-frame ray hit
within the collision radius re-applies the ×0.3 damping and the
reflect-and-halve of the velocity vector, but `triggerCrash` returns early,
so the crashed flag stays set and the recovery timer is not reset. -/
theorem crashed_frame_collision_recheck (s : CarState) (k : Keys) (dt : ℝ)
    (i : Physics.Intersection) (hr : k.r = false) (hc : s.isCollided = true)
    (ht : s.collisionTimer + dt < collisionRecoveryTime)
    (hd : i.distance < collisionRadius) :
    Car.update s k dt = ({ s with collisionTimer := s.collisionTimer + dt }, []) ∧
    (Physics.checkCollisions (Car.update s k dt).1 [i]).2 = true ∧
    (Physics.checkCollisions (Car.update s k dt).1 [i]).1.velocity = 0.3 * s.velocity ∧
    (Physics.checkCollisions (Car.update s k dt).1 [i]).1.velocityVector
      = (s.velocityVector.reflect (i.face.getD ⟨0,0,1⟩)).multiplyScalar 0.5 ∧
    (Physics.checkCollisions (Car.update s k dt).1 [i]).1.isCollided = true ∧
    (Physics.checkCollisions (Car.update s k dt).1 [i]).1.collisionTimer
      = s.collisionTimer + dt := by
  have hu : Car.update s k dt = ({ s with collisionTimer := s.collisionTimer + dt }, []) := by
    unfold Car.update
    rw [if_neg (by simp [hr]), if_pos (by simp [hc]), if_neg (by simp [not_le.mpr ht])]
  refine ⟨hu, ?_, ?_, ?_, ?_, ?_⟩ <;>
    simp [hu, Physics.checkCollisions, Physics.handleCollision, Car.triggerCrash, hd, hc,
      mul_comm]

/-- Witness for C9: a crashed car at timer 0.5 hit again 0.3 units ahead
keeps its crash state and advanced timer while its speed is re-damped. -/
theorem crashed_frame_collision_recheck_witness :
    (⟨8, ⟨0,0,-8⟩, ⟨5,0,5⟩, 0, 0, 70, false, false, false, false,
        0, 0, 0, 0, 30, 0, 1, 0, false, 0, 0, true, 1/2⟩ : CarState).isCollided = true ∧
    ((1/2 : ℝ) + 1/10 < collisionRecoveryTime) ∧
    ((3/10 : ℝ) < collisionRadius) ∧
    (Physics.checkCollisions
      (Car.update
        ⟨8, ⟨0,0,-8⟩, ⟨5,0,5⟩, 0, 0, 70, false, false, false, false,
          0, 0, 0, 0, 30, 0, 1, 0, false, 0, 0, true, 1/2⟩
        ⟨false, false, false, false, false, false, false, false, false, false, false⟩
        (1/10)).1
      [⟨3/10, some ⟨0,0,1⟩⟩]).1.velocity = 0.3 * 8 := by
  have h := crashed_frame_collision_recheck
    ⟨8, ⟨0,0,-8⟩, ⟨5,0,5⟩, 0, 0, 70, false, false, false, false,
        0, 0, 0, 0, 30, 0, 1, 0, false, 0, 0, true, 1/2⟩
    ⟨false, false, false, false, false, false, false, false, false, false, false⟩
    (1/10) ⟨3/10, some ⟨0,0,1⟩⟩ rfl rfl
    (by norm_num [collisionRecoveryTime]) (by norm_num [collisionRadius])
  exact ⟨rfl, by norm_num [collisionRecoveryTime], by norm_num [collisionRadius], h.2.2.1⟩

/-- C10: the program keeps two distinct totals.  The Car's `totalScore`
grows by the floored bucket on every drift-end transition (`Car` has no
session clock, so this is unconditional on any timer) and survives
`restart`; the separate `GameState.score` is updated only while the session
clock runs, and every added point value is multiplied by the chain
multiplier. -/
theorem dual_score_totals (s : CarState) (k : Keys) (dt : ℝ) (g : GameState) (p : ℝ)
    (hr : k.r = false) (hc : s.isCollided = false) (hd : s.isDrifting = true)
    (hend : (Car.update s k dt).1.isDrifting = false) :
    (Car.update s k dt).1.totalScore = s.totalScore + (⌊s.activeDriftPoints⌋ : ℝ) ∧
    (Car.restart s).totalScore = s.totalScore ∧
    (g.isTimerRunning = true → (g.addScore p).score = g.score + p * g.driftMultiplier) ∧
    (g.isTimerRunning = false → (g.addScore p).score = g.score) := by
  refine ⟨(update_commit_effects s k dt hr hc hd hend).2.2.1, rfl, ?_, ?_⟩
  · intro h
    simp only [GameState.addScore, h, if_true]
    split_ifs <;> rfl
  · intro h
    simp [GameState.addScore, h]

/-- Witness for C10: a commit of 12.25 pending points raises the Car total
from 40 to 52 regardless of any clock, while `addScore 5` on a running
GameState with multiplier 2 adds 10 and on a stopped one adds nothing. -/
theorem dual_score_totals_witness :
    (Car.update
      ⟨8, ⟨0,0,-8⟩, ⟨1,0,1⟩, 0, 0, 10, false, true, false, false,
        0, 2, 1, 0, 40, 49/4, 2, 0, false, 0, 0, false, 0⟩
      ⟨false, false, false, false, false, false, false, false, false, false, false⟩
      (1/10)).1.totalScore = 40 + ((12 : ℤ) : ℝ) ∧
    ((⟨100, 200, 2, 0, false, false, 10, true⟩ : GameState).addScore 5).score
      = 100 + 5 * 2 ∧
    ((⟨100, 200, 2, 0, false, false, 10, false⟩ : GameState).addScore 5).score = 100 := by
  have hend : (Car.update
      ⟨8, ⟨0,0,-8⟩, ⟨1,0,1⟩, 0, 0, 10, false, true, false, false,
        0, 2, 1, 0, 40, 49/4, 2, 0, false, 0, 0, false, 0⟩
      ⟨false, false, false, false, false, false, false, false, false, false, false⟩
      (1/10)).1.isDrifting = false := by
    norm_num [Car.update, Car.updateTail, Car.nitroStep, Car.inputStep, Car.steeringStep,
      Car.driftScoringStep, Car.driftAccelStep, Car.driftTimingStep, Car.rotationStep,
      Car.velocityVectorStep, Car.driftPhysicsStep, Physics.applyFriction, Car.positionStep,
      Car.spinStep, maxSpeed, enginePower, brakeForce, rollingResistance, dragCoefficient,
      engineBrakingFactor, driftInitiationSpeed, maxDriftDuration, driftPointsBase,
      spinThreshold, turnSpeed, friction, driftFriction, nitroRecoveryFromDrift,
      Car.calculateDragForce, Car.calculateRollingResistance, Car.calculateSteeringFactor,
      Vec3.add, Vec3.multiplyScalar, forwardDir, jsRem, jsTrunc, pi_div_pi_two,
      Real.sin_zero, Real.cos_zero, abs_of_pos, abs_of_neg]
  have h := dual_score_totals
    ⟨8, ⟨0,0,-8⟩, ⟨1,0,1⟩, 0, 0, 10, false, true, false, false,
        0, 2, 1, 0, 40, 49/4, 2, 0, false, 0, 0, false, 0⟩
    ⟨false, false, false, false, false, false, false, false, false, false, false⟩
    (1/10) ⟨100, 200, 2, 0, false, false, 10, true⟩ 5 rfl rfl rfl hend
  have h2 := dual_score_totals
    ⟨8, ⟨0,0,-8⟩, ⟨1,0,1⟩, 0, 0, 10, false, true, false, false,
        0, 2, 1, 0, 40, 49/4, 2, 0, false, 0, 0, false, 0⟩
    ⟨false, false, false, false, false, false, false, false, false, false, false⟩
    (1/10) ⟨100, 200, 2, 0, false, false, 10, false⟩ 5 rfl rfl rfl hend
  refine ⟨?_, h.2.2.1 rfl, h2.2.2.2 rfl⟩
  have := h.1
  rw [this]
  norm_num

/-! ### Concrete frame evaluations

`Car.update` evaluated on explicit states, used by the reachable
counterexamples.  The input keys are written positionally:
⟨space, arrowUp, arrowDown, arrowLeft, arrowRight, w, a, s, d, shift, r⟩. -/

/-- Frame: brake (`s`) held from the spawn state for dt = 10: the car
starts reversing at the fixed −0.2. -/
lemma frame_rev_init :
    Car.update initCar
      ⟨false, false, false, false, false, false, false, true, false, false, false⟩ 10
    = (⟨-(1/5), ⟨0,0,19/100⟩, ⟨20,0,219/10⟩, 0, 0, 100, false, false, true, false,
        0, 0, 0, 0, 0, 0, 1, 0, false, 0, 0, false, 0⟩, []) := by
  norm_num [Car.update, Car.updateTail, Car.nitroStep, Car.inputStep, Car.steeringStep,
    Car.driftScoringStep, Car.driftAccelStep, Car.driftTimingStep, Car.rotationStep,
    Car.velocityVectorStep, Car.driftPhysicsStep, Physics.applyFriction, Car.positionStep,
    Car.spinStep, Physics.calculateDrift, initCar, Vec3.zero,
    maxSpeed, enginePower, brakeForce, nitroDepletionRate, driftInitiationSpeed,
    maxDriftDuration, driftPointsBase, collisionRecoveryTime, spinThreshold, turnSpeed,
    friction, driftFriction, Car.calculateSteeringFactor, Vec3.add, Vec3.multiplyScalar,
    forwardDir, jsRem, jsTrunc, pi_div_pi_two, Real.sin_zero, Real.cos_zero,
    abs_of_pos, abs_of_neg]

/-- The input step of the second counterexample frame: one brake tick at
dt = 10 from −0.2 clamps the reverse speed to exactly −maxSpeed/3 (the
drift key is not read by the input step, so it is left free). -/
lemma c1_input_clamp (sp : Bool) :
    Car.inputStep
      ⟨-(1/5), ⟨0,0,19/100⟩, ⟨20,0,219/10⟩, 0, 0, 100, false, false, false, false,
        0, 0, 0, 0, 0, 0, 1, 0, false, 0, 0, false, 0⟩
      ⟨sp, false, false, false, false, false, false, true, false, false, false⟩ 10
    = ⟨-(25/3), ⟨0,0,19/100⟩, ⟨20,0,219/10⟩, 0, 0, 100, false, false, true, false,
        0, 0, 0, 0, 0, 0, 1, 0, false, 0, 0, false, 0⟩ := by
  norm_num [Car.inputStep, maxSpeed, enginePower, brakeForce]
  have h1 : (|(1:ℝ)/5| / (25 / 3)) = 3/125 := by
    rw [abs_of_pos (by norm_num)]; norm_num
  rw [h1]
  have h2 : ((3/125:ℝ)) ^ ((6:ℝ)/5) ≤ 3/125 := by
    calc ((3/125:ℝ)) ^ ((6:ℝ)/5) ≤ (3/125:ℝ) ^ ((1:ℝ)) :=
          Real.rpow_le_rpow_of_exponent_ge (by norm_num) (by norm_num) (by norm_num)
      _ = 3/125 := Real.rpow_one _
  nlinarith [h2]

/-- The drift-physics step of the second counterexample frame: the forward
force at dt = 10 flips the stale reverse vector forward and the
back-derived speed becomes −4943/300 ≈ −16.48. -/
lemma c1_drift_jump :
    Car.driftPhysicsStep
      ⟨-(25/3), ⟨0,0,19/100⟩, ⟨20,0,219/10⟩, 0, 0, 100, false, true, true, false,
        0, 0, 0, 0, 0, 0, 1, 0, false, 0, 0, false, 0⟩ 10
    = ⟨-(4943/300), ⟨0,0,-(4943/300)⟩, ⟨20,0,219/10⟩, 0, 0, 100, false, true, true, false,
        0, 0, 0, 0, 0, 0, 1, 0, false, 0, 0, false, 0⟩ := by
  norm_num [Car.driftPhysicsStep, Physics.calculateDrift, Vec3.add, Vec3.multiplyScalar,
    Vec3.dot, Vec3.length, Vec3.normalize, forwardDir, rightDir, maxSpeed,
    Real.sqrt_sq_eq_abs, Real.arccos_one, Real.sin_zero, Real.cos_zero,
    abs_of_pos, abs_of_neg, not_pi720_lt_zero, sign_neg25_3, sqrt_24433249, sqrt_90000]

/-- Frame: brake and drift (`s` + space) held at dt = 10 from the −0.2
reverse state: the reverse cap clamps to −25/3, the drift engages, and the
back-derivation leaves speed −4943/300, far past the −25/3 cap. -/
lemma c1_frame2 :
    Car.update
      ⟨-(1/5), ⟨0,0,19/100⟩, ⟨20,0,219/10⟩, 0, 0, 100, false, false, true, false,
        0, 0, 0, 0, 0, 0, 1, 0, false, 0, 0, false, 0⟩
      ⟨true, false, false, false, false, false, false, true, false, false, false⟩ 10
    = (⟨-(4943/300), ⟨0,0,-(983657/60000)⟩, ⟨20,0,-(852257/6000)⟩, 0, 0, 100, false,
        true, true, false, 0, 0, 0, 0, 0, 0, 1, 0, false, 0, 0, false, 0⟩, []) := by
  norm_num [Car.update, Car.updateTail, Car.nitroStep, Car.steeringStep,
    Car.driftScoringStep, Car.driftAccelStep, Car.driftTimingStep, Car.rotationStep,
    Car.velocityVectorStep, Physics.applyFriction, Car.positionStep, Car.spinStep,
    maxSpeed, nitroDepletionRate, driftInitiationSpeed, maxDriftDuration, driftPointsBase,
    collisionRecoveryTime, spinThreshold, turnSpeed, friction, driftFriction,
    Car.calculateSteeringFactor, Vec3.add, Vec3.multiplyScalar, forwardDir,
    jsRem, jsTrunc, pi_div_pi_two, Real.sin_zero, Real.cos_zero,
    abs_of_pos, abs_of_neg, c1_input_clamp, c1_drift_jump]

/-- Frame: brake (`s`) held at dt = 10 from the −0.2 reverse state without
drift: the reverse speed clamps to exactly −25/3 and the velocity vector is
recomputed heading-locked. -/
lemma frame_rev_clamp :
    Car.update
      ⟨-(1/5), ⟨0,0,19/100⟩, ⟨20,0,219/10⟩, 0, 0, 100, false, false, true, false,
        0, 0, 0, 0, 0, 0, 1, 0, false, 0, 0, false, 0⟩
      ⟨false, false, false, false, false, false, false, true, false, false, false⟩ 10
    = (⟨-(25/3), ⟨0,0,95/12⟩, ⟨20,0,1516/15⟩, 0, 0, 100, false, false, true, false,
        0, 0, 0, 0, 0, 0, 1, 0, false, 0, 0, false, 0⟩, []) := by
  norm_num [Car.update, Car.updateTail, Car.nitroStep, Car.steeringStep,
    Car.driftScoringStep, Car.driftAccelStep, Car.driftTimingStep, Car.rotationStep,
    Car.velocityVectorStep, Car.driftPhysicsStep, Physics.applyFriction, Car.positionStep,
    Car.spinStep, maxSpeed, nitroDepletionRate, driftInitiationSpeed, maxDriftDuration,
    driftPointsBase, collisionRecoveryTime, spinThreshold, turnSpeed, friction,
    driftFriction, Car.calculateSteeringFactor, Vec3.add, Vec3.multiplyScalar, forwardDir,
    jsRem, jsTrunc, pi_div_pi_two, Real.sin_zero, Real.cos_zero,
    abs_of_pos, abs_of_neg, c1_input_clamp]

/-- Frame: brake and drift (`s` + space) at dt = 0.1 from the clamped
reverse state: the drift engages while reversing, the stale backward vector
shrinks a little from the forward force and the angle correction, and the
back-derived speed stays reverse at −23/3. -/
lemma frame_rev_drift :
    Car.update
      ⟨-(25/3), ⟨0,0,95/12⟩, ⟨20,0,1516/15⟩, 0, 0, 100, false, false, true, false,
        0, 0, 0, 0, 0, 0, 1, 0, false, 0, 0, false, 0⟩
      ⟨true, false, false, false, false, false, false, true, false, false, false⟩ (1/10)
    = (⟨-(23/3), ⟨0,0,4577/600⟩, ⟨20,0,203659/2000⟩, 0, 0, 100, false, true, true, false,
        0, 0, 0, 0, 0, 0, 1, 0, false, 0, 0, false, 0⟩, []) := by
  norm_num [Car.update, Car.updateTail, Car.nitroStep, Car.inputStep, Car.steeringStep,
    Car.driftScoringStep, Car.driftAccelStep, Car.driftTimingStep, Car.rotationStep,
    Car.velocityVectorStep, Car.driftPhysicsStep, Physics.calculateDrift,
    Physics.applyFriction, Car.positionStep, Car.spinStep,
    maxSpeed, enginePower, brakeForce, nitroDepletionRate, driftInitiationSpeed,
    maxDriftDuration, driftPointsBase, collisionRecoveryTime, spinThreshold, turnSpeed,
    friction, driftFriction, Car.calculateSteeringFactor,
    Vec3.add, Vec3.multiplyScalar, Vec3.dot, Vec3.length, Vec3.normalize,
    forwardDir, rightDir, jsRem, jsTrunc, pi_div_pi_two,
    Real.sin_zero, Real.cos_zero, Real.one_rpow, Real.arccos_neg_one,
    Real.sqrt_sq_eq_abs, abs_of_pos, abs_of_neg, not_pi720_lt_zero, pi720_lt_pi,
    sign_neg25_3, sqrt_961, sqrt_16, sqrt_529, sqrt_9]

/-- C1 (failing input for the documented speed bound): from the spawn
state, two brake frames at dt = 10 — the second with drift held — leave the
signed speed at −4943/300 ≈ −16.48, strictly below the documented reverse
cap −maxSpeed/3 = −25/3: the drifting back-derivation of speed from the
velocity vector bypasses the reverse cap (and the reverse-acceleration
formula has no guard for ratios above 1). -/
theorem reverse_speed_cap_violated :
    (Car.update
      (Car.update initCar
        ⟨false, false, false, false, false, false, false, true, false, false, false⟩ 10).1
      ⟨true, false, false, false, false, false, false, true, false, false, false⟩
      10).1.velocity = -(4943/300) ∧
    (-(4943/300) : ℝ) < -(maxSpeed / 3) := by
  rw [frame_rev_init]
  constructor
  · rw [c1_frame2]
  · norm_num [maxSpeed]

/-- C5 counterexample: a reachable reverse-speed drift frame ends with the
angle between the velocity vector and the heading's forward direction equal
to π, far above the ~63° (0.35π) threshold — the per-frame correction
nudges the vector but does not bound the angle. -/
theorem drift_angle_exceeds_threshold :
    (Car.update
      (Car.update
        (Car.update initCar
          ⟨false, false, false, false, false, false, false, true, false, false, false⟩ 10).1
        ⟨false, false, false, false, false, false, false, true, false, false, false⟩ 10).1
      ⟨true, false, false, false, false, false, false, true, false, false, false⟩
      (1/10)).1.isDrifting = true ∧
    Real.arccos
      (((Car.update
        (Car.update
          (Car.update initCar
            ⟨false, false, false, false, false, false, false, true, false, false, false⟩
            10).1
          ⟨false, false, false, false, false, false, false, true, false, false, false⟩ 10).1
        ⟨true, false, false, false, false, false, false, true, false, false, false⟩
        (1/10)).1.velocityVector.normalize).dot
       (forwardDir (Car.update
        (Car.update
          (Car.update initCar
            ⟨false, false, false, false, false, false, false, true, false, false, false⟩
            10).1
          ⟨false, false, false, false, false, false, false, true, false, false, false⟩ 10).1
        ⟨true, false, false, false, false, false, false, true, false, false, false⟩
        (1/10)).1.rotationY)) = Real.pi ∧
    Real.pi * (7/20) < Real.pi := by
  rw [frame_rev_init]
  rw [frame_rev_clamp]
  rw [frame_rev_drift]
  refine ⟨rfl, ?_, by nlinarith [Real.pi_pos]⟩
  norm_num [Vec3.normalize, Vec3.length, Vec3.dot, Vec3.multiplyScalar, forwardDir,
    Real.sin_zero, Real.cos_zero, Real.sqrt_sq_eq_abs, abs_of_pos, abs_of_neg,
    sqrt_20948929, sqrt_360000, Real.arccos_neg_one]

/-- The forward unit vector really is a unit vector. -/
lemma forwardDir_dot_self (θ : ℝ) : (forwardDir θ).dot (forwardDir θ) = 1 := by
  simp only [forwardDir, Vec3.dot]
  nlinarith [Real.sin_sq_add_cos_sq θ]

/-- C5 amended: while drifting, whenever the angle between the
(force-updated) velocity vector and the heading's forward direction exceeds
0.35π, `calculateDrift` adds the correction `0.1 × dt × |speed|` along the
forward direction; for `dt > 0` and nonzero speed this strictly increases
the velocity's forward component, but it does not force the angle back
below the threshold (see the reachable π-angle counterexample). -/
theorem drift_angle_correction_mechanism (car : CarState) (steer dt : ℝ)
    (hdt : 0 < dt) (hv : car.velocity ≠ 0)
    (hangle : Real.pi * 0.35 < Real.arccos
      ((((car.velocityVector.add ((rightDir car.rotationY).multiplyScalar
            (steer * 3.0 * |car.velocity| * 0.04 * dt))).add
          ((forwardDir car.rotationY).multiplyScalar
            (|car.velocity| * 0.2 * dt))).normalize).dot
        (forwardDir car.rotationY))) :
    (Physics.calculateDrift car steer true dt).1.velocityVector
      = ((car.velocityVector.add ((rightDir car.rotationY).multiplyScalar
            (steer * 3.0 * |car.velocity| * 0.04 * dt))).add
          ((forwardDir car.rotationY).multiplyScalar (|car.velocity| * 0.2 * dt))).add
        ((forwardDir car.rotationY).multiplyScalar (0.1 * dt * |car.velocity|)) ∧
    ((car.velocityVector.add ((rightDir car.rotationY).multiplyScalar
          (steer * 3.0 * |car.velocity| * 0.04 * dt))).add
        ((forwardDir car.rotationY).multiplyScalar (|car.velocity| * 0.2 * dt))).dot
        (forwardDir car.rotationY)
      < (Physics.calculateDrift car steer true dt).1.velocityVector.dot
          (forwardDir car.rotationY) := by
  have hcd : (Physics.calculateDrift car steer true dt).1.velocityVector
      = ((car.velocityVector.add ((rightDir car.rotationY).multiplyScalar
            (steer * 3.0 * |car.velocity| * 0.04 * dt))).add
          ((forwardDir car.rotationY).multiplyScalar (|car.velocity| * 0.2 * dt))).add
        ((forwardDir car.rotationY).multiplyScalar (0.1 * dt * |car.velocity|)) := by
    simp only [Physics.calculateDrift, if_pos rfl]
    rw [if_pos hangle, if_pos trivial]
  refine ⟨hcd, ?_⟩
  rw [hcd]
  have habs : 0 < |car.velocity| := abs_pos.mpr hv
  have hunit := forwardDir_dot_self car.rotationY
  simp only [Vec3.add, Vec3.multiplyScalar, Vec3.dot, forwardDir] at hunit ⊢
  nlinarith [hunit, mul_pos (mul_pos (by norm_num : (0:ℝ) < 0.1) hdt) habs]

/-- Witness for the amended C5: at the reachable reverse-drift state the
angle hypothesis holds (the updated vector points straight backward, angle
π) and the correction strictly raises the forward component. -/
theorem drift_angle_correction_mechanism_witness :
    (0 : ℝ) < 1/10 ∧
    ((⟨-(25/3), ⟨0,0,95/12⟩, ⟨20,0,1516/15⟩, 0, 0, 100, false, true, true, false,
        0, 0, 0, 0, 0, 0, 1, 0, false, 0, 0, false, 0⟩ : CarState).velocity ≠ 0) ∧
    (((⟨-(25/3), ⟨0,0,95/12⟩, ⟨20,0,1516/15⟩, 0, 0, 100, false, true, true, false,
          0, 0, 0, 0, 0, 0, 1, 0, false, 0, 0, false, 0⟩ :
        CarState).velocityVector.add ((rightDir (0:ℝ)).multiplyScalar
          (0 * 3.0 * |(-(25/3) : ℝ)| * 0.04 * (1/10)))).add
        ((forwardDir (0:ℝ)).multiplyScalar (|(-(25/3) : ℝ)| * 0.2 * (1/10)))).dot
        (forwardDir (0:ℝ))
      < (Physics.calculateDrift
          ⟨-(25/3), ⟨0,0,95/12⟩, ⟨20,0,1516/15⟩, 0, 0, 100, false, true, true, false,
            0, 0, 0, 0, 0, 0, 1, 0, false, 0, 0, false, 0⟩ 0 true
          (1/10)).1.velocityVector.dot (forwardDir (0:ℝ)) := by
  have h := drift_angle_correction_mechanism
    ⟨-(25/3), ⟨0,0,95/12⟩, ⟨20,0,1516/15⟩, 0, 0, 100, false, true, true, false,
      0, 0, 0, 0, 0, 0, 1, 0, false, 0, 0, false, 0⟩ 0 (1/10)
    (by norm_num) (by norm_num) (by
      norm_num [Vec3.normalize, Vec3.length, Vec3.dot, Vec3.add, Vec3.multiplyScalar,
        forwardDir, rightDir, Real.sin_zero, Real.cos_zero, Real.sqrt_sq_eq_abs,
        abs_of_pos, abs_of_neg, Real.arccos_neg_one, sqrt_961, sqrt_16]
      nlinarith [Real.pi_pos])
  exact ⟨by norm_num, by norm_num, h.2⟩

/-- The input step of the reverse hold-drift frame: a brake tick at
dt = 0.1 from −23/3 clamps back to −25/3. -/
lemma c8_input_clamp (sp : Bool) :
    Car.inputStep
      ⟨-(23/3), ⟨0,0,4577/600⟩, ⟨20,0,203659/2000⟩, 0, 0, 100, false, true, false, false,
        0, 0, 0, 0, 0, 0, 1, 0, false, 0, 0, false, 0⟩
      ⟨sp, false, false, false, false, false, false, true, false, false, false⟩ (1/10)
    = ⟨-(25/3), ⟨0,0,4577/600⟩, ⟨20,0,203659/2000⟩, 0, 0, 100, false, true, true, false,
        0, 0, 0, 0, 0, 0, 1, 0, false, 0, 0, false, 0⟩ := by
  norm_num [Car.inputStep, maxSpeed, enginePower, brakeForce]
  have h1 : (|(23:ℝ)/3| / (25 / 3)) = 23/25 := by
    rw [abs_of_pos (by norm_num)]; norm_num
  rw [h1]
  have h2 : ((23/25:ℝ)) ^ ((6:ℝ)/5) ≤ 23/25 := by
    calc ((23/25:ℝ)) ^ ((6:ℝ)/5) ≤ (23/25:ℝ) ^ ((1:ℝ)) :=
          Real.rpow_le_rpow_of_exponent_ge (by norm_num) (by norm_num) (by norm_num)
      _ = 23/25 := Real.rpow_one _
  nlinarith [h2]

/-- Frame: brake and drift held at dt = 0.1 while reversing at −23/3: the
clamped speed −25/3 gives a negative per-frame speed factor, so the pending
drift bucket goes negative (−1/3). -/
lemma frame_rev_drift_hold :
    Car.update
      ⟨-(23/3), ⟨0,0,4577/600⟩, ⟨20,0,203659/2000⟩, 0, 0, 100, false, true, true, false,
        0, 0, 0, 0, 0, 0, 1, 0, false, 0, 0, false, 0⟩
      ⟨true, false, false, false, false, false, false, true, false, false, false⟩ (1/10)
    = (⟨-(4427/600), ⟨0,0,880973/120000⟩, ⟨20,0,123076373/1200000⟩, 0, 0, 100, false,
        true, true, false, 0, 1/10, 1/25, 0, 0, -(1/3), 1, 0, false, 0, 0, false, 0⟩,
       []) := by
  norm_num [Car.update, Car.updateTail, Car.nitroStep, Car.steeringStep,
    Car.driftScoringStep, Car.driftAccelStep, Car.driftTimingStep, Car.rotationStep,
    Car.velocityVectorStep, Car.driftPhysicsStep, Physics.calculateDrift,
    Physics.applyFriction, Car.positionStep, Car.spinStep,
    maxSpeed, nitroDepletionRate, driftInitiationSpeed, maxDriftDuration, driftPointsBase,
    collisionRecoveryTime, spinThreshold, turnSpeed, friction, driftFriction,
    Car.calculateSteeringFactor, Vec3.add, Vec3.multiplyScalar, Vec3.dot, Vec3.length,
    Vec3.normalize, forwardDir, rightDir, jsRem, jsTrunc, pi_div_pi_two,
    Real.sin_zero, Real.cos_zero, Real.arccos_neg_one, Real.sqrt_sq_eq_abs,
    abs_of_pos, abs_of_neg, not_pi720_lt_zero, pi720_lt_pi, sign_neg25_3,
    sqrt_20043529, sqrt_19598329, sqrt_360000, c8_input_clamp]

/-- The input step of the commit frame: a brake tick at dt = 0.1 from
−4427/600 clamps back to −25/3. -/
lemma c8_input_clamp2 (sp : Bool) :
    Car.inputStep
      ⟨-(4427/600), ⟨0,0,880973/120000⟩, ⟨20,0,123076373/1200000⟩, 0, 0, 100, false,
        true, false, false, 0, 1/10, 1/25, 0, 0, -(1/3), 1, 0, false, 0, 0, false, 0⟩
      ⟨sp, false, false, false, false, false, false, true, false, false, false⟩ (1/10)
    = ⟨-(25/3), ⟨0,0,880973/120000⟩, ⟨20,0,123076373/1200000⟩, 0, 0, 100, false,
        true, true, false, 0, 1/10, 1/25, 0, 0, -(1/3), 1, 0, false, 0, 0, false, 0⟩ := by
  norm_num [Car.inputStep, maxSpeed, enginePower, brakeForce]
  have h1 : (|(4427:ℝ)/600| / (25 / 3)) = 4427/5000 := by
    rw [abs_of_pos (by norm_num)]; norm_num
  rw [h1]
  have h2 : ((4427/5000:ℝ)) ^ ((6:ℝ)/5) ≤ 4427/5000 := by
    calc ((4427/5000:ℝ)) ^ ((6:ℝ)/5) ≤ (4427/5000:ℝ) ^ ((1:ℝ)) :=
          Real.rpow_le_rpow_of_exponent_ge (by norm_num) (by norm_num) (by norm_num)
      _ = 4427/5000 := Real.rpow_one _
  nlinarith [h2]

/-- Frame: drift released while still braking at dt = 0.1: the negative
bucket −1/3 is floored to −1 and committed, dropping the cumulative total
to −1 and "recovering" −4 nitro. -/
lemma frame_rev_commit :
    Car.update
      ⟨-(4427/600), ⟨0,0,880973/120000⟩, ⟨20,0,123076373/1200000⟩, 0, 0, 100, false,
        true, true, false, 0, 1/10, 1/25, 0, 0, -(1/3), 1, 0, false, 0, 0, false, 0⟩
      ⟨false, false, false, false, false, false, false, true, false, false, false⟩ (1/10)
    = (⟨-(25/3), ⟨0,0,95/12⟩, ⟨20,0,124026373/1200000⟩, 0, 0, 96, false,
        false, true, false, 0, 0, 0, 0, -1, 0, 1, 0, false, 0, 0, false, 0⟩,
       [GameEvent.driftScore (-1) (-1) ⟨20,0,123076373/1200000⟩]) := by
  norm_num [Car.update, Car.updateTail, Car.nitroStep, Car.steeringStep,
    Car.driftScoringStep, Car.driftAccelStep, Car.driftTimingStep, Car.rotationStep,
    Car.velocityVectorStep, Car.driftPhysicsStep, Physics.calculateDrift,
    Physics.applyFriction, Car.positionStep, Car.spinStep,
    maxSpeed, nitroDepletionRate, nitroRecoveryFromDrift, driftInitiationSpeed,
    maxDriftDuration, driftPointsBase, collisionRecoveryTime, spinThreshold, turnSpeed,
    friction, driftFriction, Car.calculateSteeringFactor, Vec3.add, Vec3.multiplyScalar,
    forwardDir, jsRem, jsTrunc, pi_div_pi_two, Real.sin_zero, Real.cos_zero,
    abs_of_pos, abs_of_neg, c8_input_clamp2]

/-- C8 counterexample: a reachable five-frame input history (reverse, then
drift while reversing, then release) ends with the cumulative total score
at −1, strictly below its starting value 0 — the total is not monotonically
non-decreasing. -/
theorem total_score_decreases :
    (Car.update
      (Car.update
        (Car.update
          (Car.update
            (Car.update initCar
              ⟨false, false, false, false, false, false, false, true, false, false,
                false⟩ 10).1
            ⟨false, false, false, false, false, false, false, true, false, false,
              false⟩ 10).1
          ⟨true, false, false, false, false, false, false, true, false, false,
            false⟩ (1/10)).1
        ⟨true, false, false, false, false, false, false, true, false, false,
          false⟩ (1/10)).1
      ⟨false, false, false, false, false, false, false, true, false, false,
        false⟩ (1/10)).1.totalScore = -1 ∧
    ((-1 : ℝ) < 0) ∧ initCar.totalScore = 0 := by
  rw [frame_rev_init, frame_rev_clamp, frame_rev_drift, frame_rev_drift_hold,
    frame_rev_commit]
  exact ⟨rfl, by norm_num, rfl⟩

/-- C8 amended: the Car total changes only at drift-end commits, by the
floored pending bucket, so it is non-decreasing on every frame whose
floored bucket is nonnegative (reverse-speed drifting can make the bucket
negative); `GameState.addScore` changes the session score only while the
session clock runs, and never decreases it for nonnegative points and
multiplier. -/
theorem score_monotonicity_gated (s : CarState) (k : Keys) (dt : ℝ)
    (g : GameState) (p : ℝ) :
    (0 ≤ ⌊s.activeDriftPoints⌋ → s.totalScore ≤ (Car.update s k dt).1.totalScore) ∧
    (g.isTimerRunning = false → (g.addScore p).score = g.score) ∧
    (g.isTimerRunning = true → 0 ≤ p → 0 ≤ g.driftMultiplier →
      g.score ≤ (g.addScore p).score) := by
  refine ⟨?_, ?_, ?_⟩
  · intro hbk
    by_cases hr : k.r = true
    · simp [Car.update, Car.restart, hr]
    · by_cases hc : s.isCollided = true
      · unfold Car.update
        rw [if_neg (by simp [hr]), if_pos (by simp [hc])]
        dsimp only
        split_ifs <;> simp [Car.revive]
      · obtain ⟨c, hts, hadp, _, _, _, _, _, _, _, _, hupd⟩ :=
          Car.update_normal s k dt (by simpa using hr) (by simpa using hc)
        rw [hupd]
        simp only [Car.updateTail]
        simp only [Car.spinStep_fields, Car.positionStep_fields, Car.applyFriction_fields,
          Car.driftPhysicsStep_fields, Car.velocityVectorStep_fields,
          Car.rotationStep_fields, Car.driftTimingStep_fields, Car.driftAccelStep_fields]
        have hcast : (0:ℝ) ≤ (⌊s.activeDriftPoints⌋ : ℝ) := by exact_mod_cast hbk
        by_cases hb : (k.space = true ∧ driftInitiationSpeed < |c.velocity|)
        · rw [if_pos hb]
          by_cases hw : c.isDrifting = true
          · rw [Car.driftScoringStep_hold _ dt rfl hw]
            simp [hts]
          · rw [Car.driftScoringStep_start _ dt rfl (by simpa using hw)]
            simp [hts]
        · rw [if_neg hb]
          by_cases hw : c.isDrifting = true
          · rw [Car.driftScoringStep_commit _ dt rfl hw]
            simp only []
            rw [show ({ c with isDrifting := false } : CarState).totalScore
                = c.totalScore from rfl]
            rw [show ({ c with isDrifting := false } : CarState).activeDriftPoints
                = c.activeDriftPoints from rfl]
            rw [hts, hadp]
            linarith
          · rw [Car.driftScoringStep_none _ dt rfl (by simpa using hw)]
            simp [hts]
  · intro h
    simp [GameState.addScore, h]
  · intro h hp hm
    simp only [GameState.addScore, h, if_true]
    have : g.score ≤ g.score + p * g.driftMultiplier := by nlinarith
    split_ifs <;> simpa

/-- Witness for the amended C8: a frame with a nonnegative pending bucket
does not decrease the total; a stopped clock blocks `addScore`; a running
clock with nonnegative points does not decrease the session score. -/
theorem score_monotonicity_gated_witness :
    ((0:ℤ) ≤ ⌊(2 : ℝ)⌋) ∧
    ((⟨10, ⟨0,0,-10⟩, ⟨20,0,20⟩, 0, 0, 50, false, true, false, false,
        0, 1, 1, 0, 20, 2, 3, 0, false, 0, 0, false, 0⟩ : CarState).totalScore
      ≤ (Car.update
          ⟨10, ⟨0,0,-10⟩, ⟨20,0,20⟩, 0, 0, 50, false, true, false, false,
            0, 1, 1, 0, 20, 2, 3, 0, false, 0, 0, false, 0⟩
          ⟨false, false, false, false, false, false, false, false, false, false, false⟩
          (1/10)).1.totalScore) ∧
    ((⟨100, 200, 2, 0, false, false, 10, false⟩ : GameState).addScore 5).score = 100 ∧
    (100 : ℝ) ≤ ((⟨100, 200, 2, 0, false, false, 10, true⟩ : GameState).addScore 5).score := by
  have h := score_monotonicity_gated
    ⟨10, ⟨0,0,-10⟩, ⟨20,0,20⟩, 0, 0, 50, false, true, false, false,
      0, 1, 1, 0, 20, 2, 3, 0, false, 0, 0, false, 0⟩
    ⟨false, false, false, false, false, false, false, false, false, false, false⟩
    (1/10) ⟨100, 200, 2, 0, false, false, 10, false⟩ 5
  have h2 := score_monotonicity_gated
    ⟨10, ⟨0,0,-10⟩, ⟨20,0,20⟩, 0, 0, 50, false, true, false, false,
      0, 1, 1, 0, 20, 2, 3, 0, false, 0, 0, false, 0⟩
    ⟨false, false, false, false, false, false, false, false, false, false, false⟩
    (1/10) ⟨100, 200, 2, 0, false, false, 10, true⟩ 5
  exact ⟨by norm_num, h.1 (by norm_num), h.2.1 rfl, h2.2.2 rfl (by norm_num) (by norm_num)⟩

/-- Frame: throttle (`w`) held from the spawn state at dt = 1: one Euler
step reaches the forward cap 25. -/
lemma frame_accel :
    Car.update initCar
      ⟨false, false, false, false, false, true, false, false, false, false, false⟩ 1
    = (⟨25, ⟨0,0,-(95/4)⟩, ⟨20,0,-(15/4)⟩, 0, 0, 100, false, false, false, true,
        0, 0, 0, 0, 0, 0, 1, 0, false, 0, 0, false, 0⟩, []) := by
  norm_num [Car.update, Car.updateTail, Car.nitroStep, Car.inputStep, Car.steeringStep,
    Car.driftScoringStep, Car.driftAccelStep, Car.driftTimingStep, Car.rotationStep,
    Car.velocityVectorStep, Car.driftPhysicsStep, Physics.applyFriction, Car.positionStep,
    Car.spinStep, initCar, Vec3.zero, Car.calculateAccelerationFactor,
    maxSpeed, enginePower, brakeForce, nitroDepletionRate, driftInitiationSpeed,
    maxDriftDuration, driftPointsBase, collisionRecoveryTime, spinThreshold, turnSpeed,
    friction, driftFriction, Car.calculateSteeringFactor, Vec3.add, Vec3.multiplyScalar,
    forwardDir, jsRem, jsTrunc, pi_div_pi_two, Real.sin_zero, Real.cos_zero,
    Real.zero_rpow, abs_of_pos, abs_of_neg]

/-- Frame: throttle and drift held at dt = 1 from the 25-cap state: the
drift engages, the back-derived speed 115/4 is clamped to 25 by the drift
friction boost. -/
lemma frame_accel_drift :
    Car.update
      ⟨25, ⟨0,0,-(95/4)⟩, ⟨20,0,-(15/4)⟩, 0, 0, 100, false, false, false, true,
        0, 0, 0, 0, 0, 0, 1, 0, false, 0, 0, false, 0⟩
      ⟨true, false, false, false, false, true, false, false, false, false, false⟩ 1
    = (⟨25, ⟨0,0,-(4577/160)⟩, ⟨20,0,-(5177/160)⟩, 0, 0, 100, false, true, false, true,
        0, 0, 0, 0, 0, 0, 1, 0, false, 0, 0, false, 0⟩, []) := by
  norm_num [Car.update, Car.updateTail, Car.nitroStep, Car.inputStep, Car.steeringStep,
    Car.driftScoringStep, Car.driftAccelStep, Car.driftTimingStep, Car.rotationStep,
    Car.velocityVectorStep, Car.driftPhysicsStep, Physics.calculateDrift,
    Physics.applyFriction, Car.positionStep, Car.spinStep,
    Car.calculateAccelerationFactor, maxSpeed, enginePower, brakeForce,
    nitroDepletionRate, driftInitiationSpeed, maxDriftDuration, driftPointsBase,
    collisionRecoveryTime, spinThreshold, turnSpeed, friction, driftFriction,
    Car.calculateSteeringFactor, Vec3.add, Vec3.multiplyScalar, Vec3.dot, Vec3.length,
    Vec3.normalize, forwardDir, rightDir, jsRem, jsTrunc, pi_div_pi_two,
    Real.sin_zero, Real.cos_zero, Real.one_rpow, Real.arccos_one, Real.sqrt_sq_eq_abs,
    abs_of_pos, abs_of_neg, not_pi720_lt_zero, Real.sign_of_pos,
    sqrt_13225, sqrt_16]

/-- Frame: throttle and drift held for a second dt = 1 step: one full
second of capped-speed drifting accrues 10 pending points. -/
lemma frame_accel_drift_hold :
    Car.update
      ⟨25, ⟨0,0,-(4577/160)⟩, ⟨20,0,-(5177/160)⟩, 0, 0, 100, false, true, false, true,
        0, 0, 0, 0, 0, 0, 1, 0, false, 0, 0, false, 0⟩
      ⟨true, false, false, false, false, true, false, false, false, false, false⟩ 1
    = (⟨25, ⟨0,0,-(1070023/32000)⟩, ⟨20,0,-(2105423/32000)⟩, 0, 0, 100, false, true,
        false, true, 0, 1, 2/5, 0, 0, 10, 1, 0, false, 0, 0, false, 0⟩, []) := by
  norm_num [Car.update, Car.updateTail, Car.nitroStep, Car.inputStep, Car.steeringStep,
    Car.driftScoringStep, Car.driftAccelStep, Car.driftTimingStep, Car.rotationStep,
    Car.velocityVectorStep, Car.driftPhysicsStep, Physics.calculateDrift,
    Physics.applyFriction, Car.positionStep, Car.spinStep,
    Car.calculateAccelerationFactor, maxSpeed, enginePower, brakeForce,
    nitroDepletionRate, driftInitiationSpeed, maxDriftDuration, driftPointsBase,
    collisionRecoveryTime, spinThreshold, turnSpeed, friction, driftFriction,
    Car.calculateSteeringFactor, Vec3.add, Vec3.multiplyScalar, Vec3.dot, Vec3.length,
    Vec3.normalize, forwardDir, rightDir, jsRem, jsTrunc, pi_div_pi_two,
    Real.sin_zero, Real.cos_zero, Real.one_rpow, Real.arccos_one, Real.sqrt_sq_eq_abs,
    abs_of_pos, abs_of_neg, not_pi720_lt_zero, Real.sign_of_pos,
    sqrt_28912129, sqrt_25600]

/-- Frame: nitro (shift) pressed as the drift key is released, dt = 0.1:
the depletion step drops nitro 100 → 97, but the same-frame drift commit of
10 points recovers 40, clamped back to 100. -/
lemma frame_nitro_commit :
    Car.update
      ⟨25, ⟨0,0,-(1070023/32000)⟩, ⟨20,0,-(2105423/32000)⟩, 0, 0, 100, false, true,
        false, true, 0, 1, 2/5, 0, 0, 10, 1, 0, false, 0, 0, false, 0⟩
      ⟨false, false, false, false, false, false, false, false, false, true, false⟩ (1/10)
    = (⟨197647/8000, ⟨0,0,-(3755293/160000)⟩, ⟨20,0,-(109026443/1600000)⟩, 0, 0, 100,
        true, false, true, false, 0, 0, 0, 0, 10, 0, 1, 0, false, 0, 0, false, 0⟩,
       [GameEvent.driftScore 10 10 ⟨20,0,-(2105423/32000)⟩]) := by
  norm_num [Car.update, Car.updateTail, Car.nitroStep, Car.inputStep, Car.steeringStep,
    Car.driftScoringStep, Car.driftAccelStep, Car.driftTimingStep, Car.rotationStep,
    Car.velocityVectorStep, Car.driftPhysicsStep, Physics.applyFriction, Car.positionStep,
    Car.spinStep, Car.calculateDragForce, Car.calculateRollingResistance,
    maxSpeed, enginePower, brakeForce, rollingResistance, dragCoefficient,
    engineBrakingFactor, nitroDepletionRate, nitroRecoveryFromDrift,
    driftInitiationSpeed, maxDriftDuration, driftPointsBase, collisionRecoveryTime,
    spinThreshold, turnSpeed, friction, driftFriction, Car.calculateSteeringFactor,
    Vec3.add, Vec3.multiplyScalar, forwardDir, jsRem, jsTrunc, pi_div_pi_two,
    Real.sin_zero, Real.cos_zero, abs_of_pos, abs_of_neg]

/-- C4 counterexample: a reachable frame on which nitro is requested with
positive speed and positive charge, yet the charge does not strictly
decrease (the same-frame drift commit refills it to 100). -/
theorem nitro_not_strictly_decreasing :
    (Car.update
      (Car.update
        (Car.update initCar
          ⟨false, false, false, false, false, true, false, false, false, false, false⟩ 1).1
        ⟨true, false, false, false, false, true, false, false, false, false, false⟩ 1).1
      ⟨true, false, false, false, false, true, false, false, false, false, false⟩
      1).1.currentNitro = 100 ∧
    (0 : ℝ) < (Car.update
      (Car.update
        (Car.update initCar
          ⟨false, false, false, false, false, true, false, false, false, false, false⟩ 1).1
        ⟨true, false, false, false, false, true, false, false, false, false, false⟩ 1).1
      ⟨true, false, false, false, false, true, false, false, false, false, false⟩
      1).1.velocity ∧
    (Car.update
      (Car.update
        (Car.update
          (Car.update initCar
            ⟨false, false, false, false, false, true, false, false, false, false,
              false⟩ 1).1
          ⟨true, false, false, false, false, true, false, false, false, false, false⟩ 1).1
        ⟨true, false, false, false, false, true, false, false, false, false, false⟩ 1).1
      ⟨false, false, false, false, false, false, false, false, false, true, false⟩
      (1/10)).1.currentNitro = 100 := by
  rw [frame_accel, frame_accel_drift, frame_accel_drift_hold]
  refine ⟨rfl, by norm_num, ?_⟩
  rw [frame_nitro_commit]

/-- C4 amended: nitro charge never exceeds 100; on a normal frame that does
not commit a drift it never increases, and it strictly decreases when nitro
is requested with positive speed and positive charge; a same-frame drift
commit can refill it (and a negative-bucket commit can even push it below
0), so the strict decrease and the lower bound hold only away from commit
frames. -/
theorem nitro_charge_dynamics (s : CarState) (k : Keys) (dt : ℝ)
    (hr : k.r = false) (hc : s.isCollided = false) (hdt : 0 < dt) :
    (s.currentNitro ≤ 100 → (Car.update s k dt).1.currentNitro ≤ 100) ∧
    (¬(s.isDrifting = true ∧ (Car.update s k dt).1.isDrifting = false) →
      (Car.update s k dt).1.currentNitro ≤ s.currentNitro) ∧
    (k.shift = true → 0 < s.currentNitro → 0 < s.velocity →
      ¬(s.isDrifting = true ∧ (Car.update s k dt).1.isDrifting = false) →
      (Car.update s k dt).1.currentNitro < s.currentNitro) := by
  obtain ⟨c, hts, hadp, hnit, hdr, hpos, hrot, hprev, hsp, hst, hss, hupd⟩ :=
    Car.update_normal s k dt hr hc
  have hfin : ∀ w : Bool, (Car.updateTail c k dt w).1.isDrifting
      = (if k.space = true ∧ driftInitiationSpeed < |c.velocity| then true else false) := by
    intro w
    simp only [Car.updateTail]
    simp only [Car.spinStep_fields, Car.positionStep_fields, Car.applyFriction_fields,
      Car.driftPhysicsStep_fields, Car.velocityVectorStep_fields, Car.rotationStep_fields,
      Car.driftTimingStep_fields, Car.driftAccelStep_fields,
      Car.driftScoringStep_other_fields]
  have hnitApp : ∀ w : Bool, ¬(w = true ∧
        (if k.space = true ∧ driftInitiationSpeed < |c.velocity| then true else false)
          = false) →
      (Car.updateTail c k dt w).1.currentNitro = c.currentNitro := by
    intro w hw
    simp only [Car.updateTail]
    simp only [Car.spinStep_fields, Car.positionStep_fields, Car.applyFriction_fields,
      Car.driftPhysicsStep_fields, Car.velocityVectorStep_fields, Car.rotationStep_fields,
      Car.driftTimingStep_fields, Car.driftAccelStep_fields]
    by_cases hb : (k.space = true ∧ driftInitiationSpeed < |c.velocity|)
    · rw [if_pos hb]
      by_cases hwt : w = true
      · rw [Car.driftScoringStep_hold _ dt rfl hwt]
      · rw [Car.driftScoringStep_start _ dt rfl (by simpa using hwt)]
    · rw [if_neg hb]
      have hwt : ¬ w = true := by
        intro h
        exact hw ⟨h, by rw [if_neg hb]⟩
      rw [Car.driftScoringStep_none _ dt rfl (by simpa using hwt)]
  have hrate : (0:ℝ) < nitroDepletionRate * dt :=
    mul_pos (by norm_num [nitroDepletionRate]) hdt
  have hnle : (Car.nitroStep s k dt).currentNitro ≤ s.currentNitro := by
    simp only [Car.nitroStep]
    split_ifs with h
    · exact max_le (le_of_lt h.2.1) (by linarith)
    · exact le_refl _
  refine ⟨?_, ?_, ?_⟩
  · intro h100
    rw [hupd]
    simp only [Car.updateTail]
    simp only [Car.spinStep_fields, Car.positionStep_fields, Car.applyFriction_fields,
      Car.driftPhysicsStep_fields, Car.velocityVectorStep_fields, Car.rotationStep_fields,
      Car.driftTimingStep_fields, Car.driftAccelStep_fields]
    by_cases hb : (k.space = true ∧ driftInitiationSpeed < |c.velocity|)
    · rw [if_pos hb]
      by_cases hwt : c.isDrifting = true
      · rw [Car.driftScoringStep_hold _ dt rfl hwt]
        simpa [hnit] using le_trans hnle h100
      · rw [Car.driftScoringStep_start _ dt rfl (by simpa using hwt)]
        simpa [hnit] using le_trans hnle h100
    · rw [if_neg hb]
      by_cases hwt : c.isDrifting = true
      · rw [Car.driftScoringStep_commit _ dt rfl hwt]
        simp
      · rw [Car.driftScoringStep_none _ dt rfl (by simpa using hwt)]
        simpa [hnit] using le_trans hnle h100
  · intro hnc
    rw [hupd] at hnc ⊢
    rw [hfin c.isDrifting] at hnc
    have : ¬(c.isDrifting = true ∧
        (if k.space = true ∧ driftInitiationSpeed < |c.velocity| then true else false)
          = false) := by
      rw [hdr]; exact hnc
    rw [hnitApp c.isDrifting this, hnit]
    exact hnle
  · intro hsh hn hv hnc
    rw [hupd] at hnc ⊢
    rw [hfin c.isDrifting] at hnc
    have : ¬(c.isDrifting = true ∧
        (if k.space = true ∧ driftInitiationSpeed < |c.velocity| then true else false)
          = false) := by
      rw [hdr]; exact hnc
    rw [hnitApp c.isDrifting this, hnit]
    simp only [Car.nitroStep]
    rw [if_pos (show k.shift = true ∧ 0 < s.currentNitro ∧ 0 < s.velocity
      from ⟨hsh, hn, hv⟩)]
    exact max_lt hn (by linarith)

/-- Witness for the amended C4: a non-commit coasting frame with nitro
requested at charge 60 and speed 10 strictly depletes the charge, and the
charge stays within the 100 cap. -/
theorem nitro_charge_dynamics_witness :
    (⟨10, ⟨0,0,-10⟩, ⟨20,0,20⟩, 0, 0, 60, false, false, false, false,
        0, 0, 0, 0, 0, 0, 1, 0, false, 0, 0, false, 0⟩ : CarState).currentNitro ≤ 100 ∧
    (Car.update
      ⟨10, ⟨0,0,-10⟩, ⟨20,0,20⟩, 0, 0, 60, false, false, false, false,
        0, 0, 0, 0, 0, 0, 1, 0, false, 0, 0, false, 0⟩
      ⟨false, false, false, false, false, false, false, false, false, true, false⟩
      (1/10)).1.currentNitro ≤ 100 ∧
    (Car.update
      ⟨10, ⟨0,0,-10⟩, ⟨20,0,20⟩, 0, 0, 60, false, false, false, false,
        0, 0, 0, 0, 0, 0, 1, 0, false, 0, 0, false, 0⟩
      ⟨false, false, false, false, false, false, false, false, false, true, false⟩
      (1/10)).1.currentNitro < 60 := by
  have hnc : ¬((⟨10, ⟨0,0,-10⟩, ⟨20,0,20⟩, 0, 0, 60, false, false, false, false,
      0, 0, 0, 0, 0, 0, 1, 0, false, 0, 0, false, 0⟩ : CarState).isDrifting = true ∧
      (Car.update
        ⟨10, ⟨0,0,-10⟩, ⟨20,0,20⟩, 0, 0, 60, false, false, false, false,
          0, 0, 0, 0, 0, 0, 1, 0, false, 0, 0, false, 0⟩
        ⟨false, false, false, false, false, false, false, false, false, true, false⟩
        (1/10)).1.isDrifting = false) := by
    intro h
    simpa using h.1
  have h := nitro_charge_dynamics
    ⟨10, ⟨0,0,-10⟩, ⟨20,0,20⟩, 0, 0, 60, false, false, false, false,
      0, 0, 0, 0, 0, 0, 1, 0, false, 0, 0, false, 0⟩
    ⟨false, false, false, false, false, false, false, false, false, true, false⟩
    (1/10) rfl rfl (by norm_num)
  exact ⟨by norm_num, h.1 (by norm_num),
    h.2.2 rfl (by norm_num) (by norm_num) hnc⟩

/-- The drift-scoring phase never emits a `spinout` event. -/
lemma countSpinout_driftScoringStep (a : CarState) (w : Bool) (dt : ℝ) :
    countSpinout (Car.driftScoringStep a w dt).2 = 0 := by
  simp only [Car.driftScoringStep]
  split_ifs <;> simp [countSpinout]

/-- Full branch-by-branch characterization of the spin-detection phase:
the angular rate, the classification predicate, the accumulation branch,
the bonus-emitting transition branch and the reset branch. -/
lemma spinStep_spec (a : CarState) (dt : ℝ) :
    (Car.spinStep a dt).1.spinRate
      = |(jsRem ((a.rotationY - a.prevRotation) + Real.pi) (Real.pi * 2) - Real.pi)
          / dt| ∧
    (Car.spinStep a dt).1.position = a.position ∧
    ((Car.spinStep a dt).1.isSpinning
      = if spinThreshold < (Car.spinStep a dt).1.spinRate ∧ 5 < |a.velocity|
          then true else false) ∧
    ((Car.spinStep a dt).1.isSpinning = true →
      (Car.spinStep a dt).1.spinTime = a.spinTime + dt ∧ (Car.spinStep a dt).2 = []) ∧
    ((Car.spinStep a dt).1.isSpinning = false → a.isSpinning = true →
        0.5 < a.spinTime →
      (Car.spinStep a dt).1.spinTime = 0 ∧ (Car.spinStep a dt).1.spinScore = 0 ∧
      (Car.spinStep a dt).2
        = [GameEvent.spinout ⌊a.spinScore * 2.5⌋ a.spinTime a.position]) ∧
    ((Car.spinStep a dt).1.isSpinning = false →
        ¬(a.isSpinning = true ∧ 0.5 < a.spinTime) →
      (Car.spinStep a dt).1.spinTime = 0 ∧ (Car.spinStep a dt).1.spinScore = 0 ∧
      (Car.spinStep a dt).2 = []) := by
  simp only [Car.spinStep]
  split_ifs <;> simp_all

/-- `updateTail` is the spin-detection phase applied to an intermediate
state whose spin bookkeeping is untouched since the start of the tail,
prefixed by drift-scoring events that are never `spinout`s. -/
lemma updateTail_spin_decomp (c : CarState) (k : Keys) (dt : ℝ) (w : Bool) :
    ∃ (a : CarState) (ev : List GameEvent),
      Car.updateTail c k dt w = ((Car.spinStep a dt).1, ev ++ (Car.spinStep a dt).2) ∧
      a.isSpinning = c.isSpinning ∧ a.spinTime = c.spinTime ∧
      a.spinScore = c.spinScore ∧ a.prevRotation = c.prevRotation ∧
      countSpinout ev = 0 := by
  refine ⟨_, _, rfl, ?_, ?_, ?_, ?_, ?_⟩
  · simp only [Car.positionStep_fields, Car.applyFriction_fields,
      Car.driftPhysicsStep_fields, Car.velocityVectorStep_fields, Car.rotationStep_fields,
      Car.driftTimingStep_fields, Car.driftAccelStep_fields,
      Car.driftScoringStep_other_fields]
  · simp only [Car.positionStep_fields, Car.applyFriction_fields,
      Car.driftPhysicsStep_fields, Car.velocityVectorStep_fields, Car.rotationStep_fields,
      Car.driftTimingStep_fields, Car.driftAccelStep_fields,
      Car.driftScoringStep_other_fields]
  · simp only [Car.positionStep_fields, Car.applyFriction_fields,
      Car.driftPhysicsStep_fields, Car.velocityVectorStep_fields, Car.rotationStep_fields,
      Car.driftTimingStep_fields, Car.driftAccelStep_fields,
      Car.driftScoringStep_other_fields]
  · simp only [Car.positionStep_fields, Car.applyFriction_fields,
      Car.driftPhysicsStep_fields, Car.velocityVectorStep_fields, Car.rotationStep_fields,
      Car.driftTimingStep_fields, Car.driftAccelStep_fields,
      Car.driftScoringStep_other_fields]
  · exact countSpinout_driftScoringStep _ _ _

/-- C6 counterexample: a spinning state with exactly half a second of
accumulated spin time (reachable after five spinning frames of dt = 0.1)
whose spinning→not-spinning transition emits no spin-bonus event, because
the code requires `spinTime > 0.5` strictly, not "at least 0.5 s". -/
theorem spin_bonus_skipped_at_half_second :
    (⟨0, ⟨0,0,0⟩, ⟨20,0,20⟩, 0, 0, 100, false, false, false, false,
        0, 0, 0, 0, 0, 0, 1, 0, true, 3, 1/2, false, 0⟩ : CarState).isSpinning = true ∧
    (⟨0, ⟨0,0,0⟩, ⟨20,0,20⟩, 0, 0, 100, false, false, false, false,
        0, 0, 0, 0, 0, 0, 1, 0, true, 3, 1/2, false, 0⟩ : CarState).spinTime = 1/2 ∧
    (Car.update
      ⟨0, ⟨0,0,0⟩, ⟨20,0,20⟩, 0, 0, 100, false, false, false, false,
        0, 0, 0, 0, 0, 0, 1, 0, true, 3, 1/2, false, 0⟩
      ⟨false, false, false, false, false, false, false, false, false, false, false⟩
      (1/10)).1.isSpinning = false ∧
    (Car.update
      ⟨0, ⟨0,0,0⟩, ⟨20,0,20⟩, 0, 0, 100, false, false, false, false,
        0, 0, 0, 0, 0, 0, 1, 0, true, 3, 1/2, false, 0⟩
      ⟨false, false, false, false, false, false, false, false, false, false, false⟩
      (1/10)).2 = [] ∧
    (Car.update
      ⟨0, ⟨0,0,0⟩, ⟨20,0,20⟩, 0, 0, 100, false, false, false, false,
        0, 0, 0, 0, 0, 0, 1, 0, true, 3, 1/2, false, 0⟩
      ⟨false, false, false, false, false, false, false, false, false, false, false⟩
      (1/10)).1.spinTime = 0 := by
  norm_num [Car.update, Car.updateTail, Car.nitroStep, Car.inputStep, Car.steeringStep,
    Car.driftScoringStep, Car.driftAccelStep, Car.driftTimingStep, Car.rotationStep,
    Car.velocityVectorStep, Car.driftPhysicsStep, Physics.applyFriction, Car.positionStep,
    Car.spinStep, Car.calculateDragForce, Car.calculateRollingResistance,
    maxSpeed, enginePower, brakeForce, rollingResistance, dragCoefficient,
    engineBrakingFactor, nitroDepletionRate, driftInitiationSpeed, maxDriftDuration,
    driftPointsBase, collisionRecoveryTime, spinThreshold, turnSpeed, friction,
    driftFriction, Car.calculateSteeringFactor, Vec3.add, Vec3.multiplyScalar,
    forwardDir, jsRem, jsTrunc, pi_div_pi_two, Real.sin_zero, Real.cos_zero,
    abs_of_pos, abs_of_neg, abs_zero]

/-- C6 amended: on every normal frame the spin phase computes the angular
rate as |(((Δ + π) mod 2π) − π)/dt| with Δ the heading change over the
frame and `mod` the sign-preserving JS remainder (so negative deltas are
not folded into (−π, π]); the vehicle is classified as spinning exactly
when that rate strictly exceeds the threshold and |speed| strictly exceeds
5; while spinning, spin time accumulates and no spinout is emitted; on a
spinning→not-spinning transition with spin time strictly greater than
0.5 s, bookkeeping resets and exactly one spinout event is emitted, scored
⌊spinScore × 2.5⌋ with the accumulated duration; on any other
non-spinning frame bookkeeping resets and no spinout is emitted. -/
theorem spin_detection_dynamics (s : CarState) (k : Keys) (dt : ℝ)
    (hr : k.r = false) (hc : s.isCollided = false) :
    (Car.update s k dt).1.spinRate
      = |(jsRem (((Car.update s k dt).1.rotationY - s.rotationY) + Real.pi)
          (Real.pi * 2) - Real.pi) / dt| ∧
    ((Car.update s k dt).1.isSpinning
      = if spinThreshold < (Car.update s k dt).1.spinRate
            ∧ 5 < |(Car.update s k dt).1.velocity| then true else false) ∧
    ((Car.update s k dt).1.isSpinning = true →
      (Car.update s k dt).1.spinTime = s.spinTime + dt ∧
      countSpinout (Car.update s k dt).2 = 0) ∧
    ((Car.update s k dt).1.isSpinning = false → s.isSpinning = true →
        0.5 < s.spinTime →
      (Car.update s k dt).1.spinTime = 0 ∧ (Car.update s k dt).1.spinScore = 0 ∧
      ∃ pre, (Car.update s k dt).2
          = pre ++ [GameEvent.spinout ⌊s.spinScore * 2.5⌋ s.spinTime
              (Car.update s k dt).1.position] ∧
        countSpinout pre = 0) ∧
    ((Car.update s k dt).1.isSpinning = false →
        ¬(s.isSpinning = true ∧ 0.5 < s.spinTime) →
      (Car.update s k dt).1.spinTime = 0 ∧ (Car.update s k dt).1.spinScore = 0 ∧
      countSpinout (Car.update s k dt).2 = 0) := by
  obtain ⟨c, hts, hadp, hnit, hdr, hpos, hrot, hprev, hsp, hst, hss, hupd⟩ :=
    Car.update_normal s k dt hr hc
  obtain ⟨a, ev, heq, hasp, hast, hass, hapr, hev0⟩ :=
    updateTail_spin_decomp c k dt c.isDrifting
  obtain ⟨hrate, hposa, hclass, hspin, htrans, hreset⟩ := spinStep_spec a dt
  have hvel : (Car.spinStep a dt).1.velocity = a.velocity := (Car.spinStep_fields a dt).1
  have hroty : (Car.spinStep a dt).1.rotationY = a.rotationY :=
    (Car.spinStep_fields a dt).2.2.2.2.2.1
  rw [hupd, heq]
  dsimp only
  have hpr : a.prevRotation = s.rotationY := by rw [hapr, hprev]
  have hisp : a.isSpinning = s.isSpinning := by rw [hasp, hsp]
  have hstime : a.spinTime = s.spinTime := by rw [hast, hst]
  have hsscore : a.spinScore = s.spinScore := by rw [hass, hss]
  refine ⟨?_, ?_, ?_, ?_, ?_⟩
  · rw [hrate, hroty, hpr]
  · rw [hclass, hvel]
  · intro h
    obtain ⟨h1, h2⟩ := hspin h
    refine ⟨by rw [h1, hstime], ?_⟩
    rw [countSpinout_append, h2, hev0]
    simp [countSpinout]
  · intro h h1 h2
    obtain ⟨ht, hsc, hev⟩ := htrans h (by rw [hisp]; exact h1) (by rw [hstime]; exact h2)
    refine ⟨ht, hsc, ev, ?_, hev0⟩
    rw [hev, hsscore, hstime, hposa]
  · intro h hn
    obtain ⟨ht, hsc, hev⟩ := hreset h (by rw [hisp, hstime]; exact hn)
    refine ⟨ht, hsc, ?_⟩
    rw [countSpinout_append, hev, hev0]
    simp [countSpinout]

/-- Witness for the amended C6: the spin characterization instantiated on
the spawn state with no input at dt = 0.1. -/
theorem spin_detection_dynamics_witness :
    (Car.update initCar
      ⟨false, false, false, false, false, false, false, false, false, false, false⟩
      (1/10)).1.spinRate
      = |(jsRem (((Car.update initCar
            ⟨false, false, false, false, false, false, false, false, false, false, false⟩
            (1/10)).1.rotationY - initCar.rotationY) + Real.pi)
          (Real.pi * 2) - Real.pi) / (1/10)| ∧
    ((Car.update initCar
      ⟨false, false, false, false, false, false, false, false, false, false, false⟩
      (1/10)).1.isSpinning
      = if spinThreshold < (Car.update initCar
            ⟨false, false, false, false, false, false, false, false, false, false, false⟩
            (1/10)).1.spinRate
            ∧ 5 < |(Car.update initCar
                ⟨false, false, false, false, false, false, false, false, false, false,
                  false⟩ (1/10)).1.velocity| then true else false) ∧
    ((Car.update initCar
      ⟨false, false, false, false, false, false, false, false, false, false, false⟩
      (1/10)).1.isSpinning = true →
      (Car.update initCar
        ⟨false, false, false, false, false, false, false, false, false, false, false⟩
        (1/10)).1.spinTime = initCar.spinTime + 1/10 ∧
      countSpinout (Car.update initCar
        ⟨false, false, false, false, false, false, false, false, false, false, false⟩
        (1/10)).2 = 0) ∧
    ((Car.update initCar
      ⟨false, false, false, false, false, false, false, false, false, false, false⟩
      (1/10)).1.isSpinning = false → initCar.isSpinning = true →
        0.5 < initCar.spinTime →
      (Car.update initCar
        ⟨false, false, false, false, false, false, false, false, false, false, false⟩
        (1/10)).1.spinTime = 0 ∧
      (Car.update initCar
        ⟨false, false, false, false, false, false, false, false, false, false, false⟩
        (1/10)).1.spinScore = 0 ∧
      ∃ pre, (Car.update initCar
          ⟨false, false, false, false, false, false, false, false, false, false, false⟩
          (1/10)).2
          = pre ++ [GameEvent.spinout ⌊initCar.spinScore * 2.5⌋ initCar.spinTime
              (Car.update initCar
                ⟨false, false, false, false, false, false, false, false, false, false,
                  false⟩ (1/10)).1.position] ∧
        countSpinout pre = 0) ∧
    ((Car.update initCar
      ⟨false, false, false, false, false, false, false, false, false, false, false⟩
      (1/10)).1.isSpinning = false →
        ¬(initCar.isSpinning = true ∧ 0.5 < initCar.spinTime) →
      (Car.update initCar
        ⟨false, false, false, false, false, false, false, false, false, false, false⟩
        (1/10)).1.spinTime = 0 ∧
      (Car.update initCar
        ⟨false, false, false, false, false, false, false, false, false, false, false⟩
        (1/10)).1.spinScore = 0 ∧
      countSpinout (Car.update initCar
        ⟨false, false, false, false, false, false, false, false, false, false, false⟩
        (1/10)).2 = 0) :=
  spin_detection_dynamics initCar
    ⟨false, false, false, false, false, false, false, false, false, false, false⟩
    (1/10) rfl rfl

end Monodrift
